import Mathlib

/-!
# MetadataTable

A shallow embedding of `Source/Scene/MetadataTable.js`: the property store
built by `initializeProperty`, the accessor `MetadataTable.prototype.getProperty`
and the constructor `MetadataTable`.

Conventions of the embedding.

* A JavaScript number that this file computes with is an integer or `NaN`;
  it is an `Option Int`, `none` standing for `NaN`.  All the quantities
  involved (offsets below `2 ^ 32`, counts) are integers far below `2 ^ 53`,
  where double arithmetic is exact.
* A thrown exception is the `Except.error` of the result.
* The own properties of a dictionary object (`bufferViews`,
  `class.properties`, `_properties`) are an association list searched with
  `List.lookup`.
* An `ArrayBuffer` is its list of bytes, and a typed array is a view
  (element kind, buffer, byte offset, length) over it, as in JavaScript.
* The enumeration modules that the source imports (`MetadataType`,
  `MetadataComponentType`, `MetadataOffsetType`, `ComponentDatatype`) are not
  part of the source file and are modelled.
* Functions are embedded body by body.  An identifier that is neither a
  parameter, a local variable nor an import of the module resolves to nothing
  and raises a `ReferenceError`: `count` at line 53, and `MetadataEnumType` at
  line 187, which lines 1-10 do not import.  `initializeProperty` therefore
  stops at line 187 unless the offset type is UINT64; its statements after the
  four checks (lines 197-285) are embedded as `initializePropertyBody`.
* An object used as a dictionary inherits the members of `Object.prototype`:
  indexing `_properties` with such a name finds the inherited member.  Buffer
  views are looked up by own ids; what an inherited member, which has no
  buffer, would yield lies with `createArrayBufferView`, which is not part of
  the source file.
-/

namespace Cesium

/-! ## Errors and numbers -/

/-- Exceptions that the embedded code can raise. -/
inductive JSError
  | RuntimeError (message : String)
  | TypeError
  | RangeError
  | DeveloperError
  | ReferenceError
  deriving DecidableEq, Repr

/-- Whether an error is a `RuntimeError`, the kind that the UINT64 checks raise. -/
def JSError.isRuntimeError : JSError → Bool
  | .RuntimeError _ => true
  | _ => false

/-- A JavaScript number restricted to the integers, `none` being `NaN`. -/
abbrev JSNumber := Option Int

/-- JavaScript `x + y`. -/
def jsAdd (x y : JSNumber) : JSNumber :=
  match x, y with
  | some a, some b => some (a + b)
  | _, _ => none

/-- JavaScript `x - y`. -/
def jsSub (x y : JSNumber) : JSNumber :=
  match x, y with
  | some a, some b => some (a - b)
  | _, _ => none

/-- JavaScript `Math.ceil(x / 8)` on an integer-valued `x`: division by a power
of two is exact in double arithmetic, so this is the mathematical ceiling. -/
def jsCeilDiv8 (x : JSNumber) : JSNumber :=
  match x with
  | some a => some (-((-a) / 8))
  | none => none

/-- The number of iterations of `for (i = 0; i < bound; ++i)`. -/
def loopIterations (bound : JSNumber) : Nat :=
  match bound with
  | some n => n.toNat
  | none => 0

/-- ECMAScript `ToIndex` on an integer or `NaN`: `NaN` becomes `0`, a negative
value is a `RangeError`. -/
def toIndex (x : JSNumber) : Except JSError Nat :=
  match x with
  | none => .ok 0
  | some n => if n < 0 then .error .RangeError else .ok n.toNat

/-! ## Enumerations -/

/-- Modelled from the spec: the `ComponentDatatype` table of `Core/ComponentDatatype.js`,
the storage numeric kinds of a typed array. -/
inductive ComponentDatatype
  | BYTE | UNSIGNED_BYTE | SHORT | UNSIGNED_SHORT | INT | UNSIGNED_INT | FLOAT | DOUBLE
  deriving DecidableEq, Repr

/-- Modelled from the spec: the width in bytes of one element of each storage kind. -/
def ComponentDatatype.getSizeInBytes : ComponentDatatype → Nat
  | .BYTE => 1
  | .UNSIGNED_BYTE => 1
  | .SHORT => 2
  | .UNSIGNED_SHORT => 2
  | .INT => 4
  | .UNSIGNED_INT => 4
  | .FLOAT => 4
  | .DOUBLE => 8

/-- Modelled from the spec: the `MetadataType` table.  The source names `UINT64`,
`ARRAY`, `STRING` and `BOOLEAN`; the spec adds the scalar, vector and enum kinds. -/
inductive MetadataType
  | INT8 | UINT8 | INT16 | UINT16 | INT32 | UINT32 | INT64 | UINT64
  | FLOAT32 | FLOAT64 | BOOLEAN | STRING | ENUM | ARRAY
  | SCALAR | VEC2 | VEC3 | VEC4
  deriving DecidableEq, Repr

/-- Modelled from the spec: the `MetadataComponentType` table.  The source names
`UINT64`, `STRING` and `BOOLEAN`. -/
inductive MetadataComponentType
  | INT8 | UINT8 | INT16 | UINT16 | INT32 | UINT32 | INT64 | UINT64
  | FLOAT32 | FLOAT64 | BOOLEAN | STRING | ENUM
  deriving DecidableEq, Repr

/-- Modelled from the spec: the values of `classProperty.enumType`, the backing
integer kind of an enumeration. -/
inductive MetadataEnumType
  | INT8 | UINT8 | INT16 | UINT16 | INT32 | UINT32 | INT64 | UINT64
  deriving DecidableEq, Repr

/-- Modelled from the spec: the `MetadataOffsetType` table, the numeric kind of
an offset array. -/
inductive MetadataOffsetType
  | UINT8 | UINT16 | UINT32 | UINT64
  deriving DecidableEq, Repr

/-- Modelled from the spec: `MetadataOffsetType.getComponentDatatype`, the
storage kind of an offset array.  The 64-bit kind has none. -/
def MetadataOffsetType.getComponentDatatype : MetadataOffsetType → Option ComponentDatatype
  | .UINT8 => some .UNSIGNED_BYTE
  | .UINT16 => some .UNSIGNED_SHORT
  | .UINT32 => some .UNSIGNED_INT
  | .UINT64 => none

/-! ## Buffers and typed arrays -/

/-- An `ArrayBuffer`: its bytes. -/
abbrev ArrayBuffer := List Nat

/-- A `Uint8Array`, the value type of `bufferViews`: the source reads its
`buffer` and `byteOffset`. -/
structure Uint8Array where
  buffer : ArrayBuffer
  byteOffset : Nat
  length : Nat
  deriving DecidableEq, Repr

/-- A typed array: a view of `length` elements of kind `componentDatatype`
over `buffer`, starting at `byteOffset`. -/
structure TypedArray where
  componentDatatype : ComponentDatatype
  buffer : ArrayBuffer
  byteOffset : Nat
  length : Nat
  deriving DecidableEq, Repr

/-- The unsigned little-endian integer held by `size` bytes from `start`. -/
def readLittleEndian (buffer : ArrayBuffer) (start : Nat) : Nat → Nat
  | 0 => 0
  | size + 1 => buffer.getD start 0 % 256 + 256 * readLittleEndian buffer (start + 1) size

/-- Element `i` of an unsigned-integer typed array, as the offset arrays are:
`a[i]`, which is `undefined` (`NaN` in arithmetic) outside the array. -/
def TypedArray.get (a : TypedArray) (i : Nat) : JSNumber :=
  if i < a.length then
    some (readLittleEndian a.buffer
      (a.byteOffset + i * a.componentDatatype.getSizeInBytes)
      a.componentDatatype.getSizeInBytes)
  else none

/-- Modelled from the spec: `ComponentDatatype.createArrayBufferView` of
`Core/ComponentDatatype.js`, which materializes a typed view of the given
storage kind and length over the buffer at the given byte offset.  An undefined
kind is rejected; the typed-array constructor raises a `RangeError` for a
misaligned offset, a negative length, or a range that leaves the buffer. -/
def ComponentDatatype.createArrayBufferView (componentDatatype : Option ComponentDatatype)
    (buffer : ArrayBuffer) (byteOffset : Nat) (length : JSNumber) : Except JSError TypedArray :=
  match componentDatatype with
  | none => .error .DeveloperError
  | some datatype =>
    if byteOffset % datatype.getSizeInBytes ≠ 0 then .error .RangeError
    else
      match toIndex length with
      | .error e => .error e
      | .ok n =>
        if buffer.length < byteOffset + n * datatype.getSizeInBytes then .error .RangeError
        else .ok { componentDatatype := datatype, buffer := buffer, byteOffset := byteOffset, length := n }

/-! ## Schema, property description and property store -/

/-- A value of the class schema, such as a declared default. -/
inductive JSValue
  | number (n : Int)
  | string (s : String)
  | boolean (b : Bool)
  | array (items : List JSValue)

/-- A property of the class (`options.class.properties[id]`): the fields that
the source reads.  An absent field is `none`. -/
structure MetadataClassProperty where
  type : MetadataType
  componentType : Option MetadataComponentType
  enumType : Option MetadataEnumType
  componentCount : Option Nat
  default : Option JSValue

/-- The class of a table: only its `properties` dictionary is read. -/
structure MetadataClass where
  properties : List (String × MetadataClassProperty)

/-- A property description (`options.properties[id]`): the buffer-view ids and
the offset type.  An absent field is `none`. -/
structure Property where
  bufferView : Option String
  arrayOffsetBufferView : Option String
  stringOffsetBufferView : Option String
  offsetType : Option MetadataOffsetType

/-- The property store that `initializeProperty` returns (source lines 12-22). -/
structure MetadataTableProperty where
  arrayOffsets : Option TypedArray
  stringOffsets : Option TypedArray
  values : TypedArray
  classProperty : MetadataClassProperty

/-- The key under which a property field is looked up in a dictionary: an
absent field is the key `undefined`. -/
def propertyKey (id : Option String) : String :=
  id.getD "undefined"

/-- The expression pair `bufferViews[id].buffer`, `bufferViews[id].byteOffset`:
a `TypeError` when `bufferViews[id]` is undefined. -/
def getBufferView (bufferViews : List (String × Uint8Array)) (id : Option String) :
    Except JSError Uint8Array :=
  match bufferViews.lookup (propertyKey id) with
  | some view => .ok view
  | none => .error .TypeError

/-! ## initializeProperty (source lines 182-285) -/

/-- Source line 199. -/
def isArray (classProperty : MetadataClassProperty) : Bool :=
  classProperty.type = MetadataType.ARRAY

/-- Source line 200. -/
def isVariableSizeArray (classProperty : MetadataClassProperty) : Bool :=
  isArray classProperty && classProperty.componentCount.isNone

/-- Source lines 201-203. -/
def hasStrings (classProperty : MetadataClassProperty) : Bool :=
  classProperty.type = MetadataType.STRING ||
    classProperty.componentType = some MetadataComponentType.STRING

/-- Source lines 204-206. -/
def hasBooleans (classProperty : MetadataClassProperty) : Bool :=
  classProperty.type = MetadataType.BOOLEAN ||
    classProperty.componentType = some MetadataComponentType.BOOLEAN

/-- The expression `MetadataEnumType.UINT64` of source line 187.  The module
imports no `MetadataEnumType` (lines 1-10) and declares none, so that evaluating
the identifier raises a `ReferenceError`. -/
def resolveMetadataEnumTypeUINT64 : Except JSError MetadataEnumType :=
  .error .ReferenceError

/-- Source lines 184-195: the four checks that reject the 64-bit unsigned kind.
The second one evaluates `MetadataEnumType.UINT64`. -/
def checkUint64 (property : Property) (classProperty : MetadataClassProperty) :
    Except JSError Unit :=
  if property.offsetType = some MetadataOffsetType.UINT64 then
    .error (.RuntimeError "offsetType of UINT64 is not supported")
  else
    match resolveMetadataEnumTypeUINT64 with
    | .error e => .error e
    | .ok enumTypeUINT64 =>
      if classProperty.enumType = some enumTypeUINT64 then
        .error (.RuntimeError "enumType of UINT64 is not supported")
      else if classProperty.componentType = some MetadataComponentType.UINT64 then
        .error (.RuntimeError "componentType of UINT64 is not supported")
      else if classProperty.type = MetadataType.UINT64 then
        .error (.RuntimeError "type of UINT64 is not supported")
      else .ok ()

/-- Source lines 208-214: the storage kind of the offset arrays, 32-bit unsigned
when the property declares no offset type. -/
def offsetComponentDatatype (property : Property) : Option ComponentDatatype :=
  MetadataOffsetType.getComponentDatatype (property.offsetType.getD MetadataOffsetType.UINT32)

/-- Source lines 216-224: the array offsets, `count + 1` entries, read for a
variable-size array only. -/
def readArrayOffsets (count : Nat) (property : Property) (classProperty : MetadataClassProperty)
    (bufferViews : List (String × Uint8Array)) : Except JSError (Option TypedArray) :=
  if isVariableSizeArray classProperty then
    match getBufferView bufferViews property.arrayOffsetBufferView with
    | .error e => .error e
    | .ok view =>
      match ComponentDatatype.createArrayBufferView (offsetComponentDatatype property)
          view.buffer view.byteOffset (some ((count : Int) + 1)) with
      | .error e => .error e
      | .ok offsets => .ok (some offsets)
  else .ok none

/-- The loop `for (i = 0; i < n; ++i) total += offsets[i + 1] - offsets[i]`
started at `total = 0` (source lines 228-231 and 262-265). -/
def sumOffsetDifferences (offsets : TypedArray) (n : Nat) : JSNumber :=
  (List.range n).foldl (fun total i => jsAdd total (jsSub (offsets.get (i + 1)) (offsets.get i)))
    (some 0)

/-- The same loop over a possibly undefined offset array: indexing `undefined`
in the first iteration is a `TypeError`. -/
def sumOffsetDifferencesOf (offsets : Option TypedArray) (n : Nat) : Except JSError JSNumber :=
  match offsets with
  | some a => .ok (sumOffsetDifferences a n)
  | none => if n = 0 then .ok (some 0) else .error .TypeError

/-- Source lines 226-236: the total component count. -/
def computeComponentCount (count : Nat) (classProperty : MetadataClassProperty)
    (arrayOffsets : Option TypedArray) : Except JSError JSNumber :=
  if isVariableSizeArray classProperty then
    sumOffsetDifferencesOf arrayOffsets count
  else if isArray classProperty then
    match classProperty.componentCount with
    | some k => .ok (some ((count : Int) * (k : Int)))
    | none => .ok none
  else
    .ok (some (count : Int))

/-- Source lines 238-246: the string offsets, `componentCount + 1` entries, read
when the property has strings. -/
def readStringOffsets (componentCount : JSNumber) (property : Property)
    (classProperty : MetadataClassProperty) (bufferViews : List (String × Uint8Array)) :
    Except JSError (Option TypedArray) :=
  if hasStrings classProperty then
    match getBufferView bufferViews property.stringOffsetBufferView with
    | .error e => .error e
    | .ok view =>
      match ComponentDatatype.createArrayBufferView (offsetComponentDatatype property)
          view.buffer view.byteOffset (jsAdd componentCount (some 1)) with
      | .error e => .error e
      | .ok offsets => .ok (some offsets)
  else .ok none

/-- Source lines 248-258: the storage kind of `values`.  The lookup
`MetadataType.getComponentDatatype` is not part of the source file and is a
parameter. -/
def chooseComponentDatatype
    (getComponentDatatype : MetadataType → Option MetadataComponentType →
      Option MetadataEnumType → Option ComponentDatatype)
    (classProperty : MetadataClassProperty) : Option ComponentDatatype :=
  if hasStrings classProperty || hasBooleans classProperty then
    some ComponentDatatype.UNSIGNED_BYTE
  else
    getComponentDatatype classProperty.type classProperty.componentType classProperty.enumType

/-- Source lines 260-270: the length of `values`. -/
def computeTypedArrayCount (classProperty : MetadataClassProperty)
    (stringOffsets : Option TypedArray) (componentCount : JSNumber) : Except JSError JSNumber :=
  if hasStrings classProperty then
    sumOffsetDifferencesOf stringOffsets (loopIterations componentCount)
  else if hasBooleans classProperty then
    .ok (jsCeilDiv8 componentCount)
  else
    .ok componentCount

/-- Source lines 272-277: the typed view `values`. -/
def readValues (componentDatatype : Option ComponentDatatype) (typedArrayCount : JSNumber)
    (property : Property) (bufferViews : List (String × Uint8Array)) :
    Except JSError TypedArray :=
  match getBufferView bufferViews property.bufferView with
  | .error e => .error e
  | .ok view =>
    ComponentDatatype.createArrayBufferView componentDatatype view.buffer view.byteOffset
      typedArrayCount

/-- Source lines 197-285: the statements of `initializeProperty` after the
four checks, in source order. -/
def initializePropertyBody
    (getComponentDatatype : MetadataType → Option MetadataComponentType →
      Option MetadataEnumType → Option ComponentDatatype)
    (count : Nat) (property : Property) (classProperty : MetadataClassProperty)
    (bufferViews : List (String × Uint8Array)) : Except JSError MetadataTableProperty :=
  match readArrayOffsets count property classProperty bufferViews with
  | .error e => .error e
  | .ok arrayOffsets =>
  match computeComponentCount count classProperty arrayOffsets with
  | .error e => .error e
  | .ok componentCount =>
  match readStringOffsets componentCount property classProperty bufferViews with
  | .error e => .error e
  | .ok stringOffsets =>
  match computeTypedArrayCount classProperty stringOffsets componentCount with
  | .error e => .error e
  | .ok typedArrayCount =>
  match readValues (chooseComponentDatatype getComponentDatatype classProperty) typedArrayCount
      property bufferViews with
  | .error e => .error e
  | .ok values =>
    .ok { arrayOffsets := arrayOffsets, stringOffsets := stringOffsets, values := values,
          classProperty := classProperty }

/-- The function `initializeProperty` of the source (lines 182-285): the four
checks, then the body. -/
def initializeProperty
    (getComponentDatatype : MetadataType → Option MetadataComponentType →
      Option MetadataEnumType → Option ComponentDatatype)
    (count : Nat) (property : Property) (classProperty : MetadataClassProperty)
    (bufferViews : List (String × Uint8Array)) : Except JSError MetadataTableProperty :=
  match checkUint64 property classProperty with
  | .error e => .error e
  | .ok () =>
    initializePropertyBody getComponentDatatype count property classProperty bufferViews

/-! ## The table and getProperty (source lines 126-143) -/

/-- The fields of a `MetadataTable` (source lines 62-64). -/
structure MetadataTable where
  _count : Nat
  _class : MetadataClass
  _properties : List (String × MetadataTableProperty)

/-- What `getProperty` returns: a copy of a property store, a copy of a
declared default, `undefined`, or the copy of the member of `Object.prototype`
of the given name (the member itself when it is a function). -/
inductive PropertyValue
  | store (property : MetadataTableProperty)
  | value (v : JSValue)
  | undefined
  | inherited (name : String)

/-- The names of the members of `Object.prototype`, which the object
`_properties` (created as `{}` at source line 48) inherits. -/
def objectPrototypeKeys : List String :=
  ["constructor", "hasOwnProperty", "isPrototypeOf", "propertyIsEnumerable", "toLocaleString",
   "toString", "valueOf", "__proto__", "__defineGetter__", "__defineSetter__",
   "__lookupGetter__", "__lookupSetter__"]

/-- Modelled from the spec: `clone(value, true)` of `Core/clone.js`, a deep copy.
A copy is equal to its original, so on values it is the identity. -/
def clone {α : Type} (value : α) (_deep : Bool) : α :=
  value

/-- The method `MetadataTable.prototype.getProperty` of the source (lines
126-143).  The result is an `Except` so that a raised error would show; the
body of the source has no `throw`, and `index` is a parameter that it never
reads.  `this._properties[propertyId]` is an own property, the store, or a
member inherited from `Object.prototype`, which is defined as well.  A member
that `this._class.properties[propertyId]` inherits has no `default`, so that
the class is searched by own keys. -/
def MetadataTable.getProperty (table : MetadataTable) (_index : Int) (propertyId : String) :
    Except JSError PropertyValue :=
  match table._properties.lookup propertyId with
  | some property => .ok (PropertyValue.store (clone property true))
  | none =>
    if objectPrototypeKeys.contains propertyId then
      .ok (PropertyValue.inherited propertyId)
    else
      match table._class.properties.lookup propertyId with
      | some classProperty =>
        match classProperty.default with
        | some v => .ok (PropertyValue.value (clone v true))
        | none => .ok PropertyValue.undefined
      | none => .ok PropertyValue.undefined

/-! ## The constructor (source lines 38-65) -/

/-- The `options` object of the constructor, with the four properties that
the source reads; `properties` may be undefined. -/
structure MetadataTableOptions where
  count : Nat
  properties : Option (List (String × Property))
  class_ : MetadataClass
  bufferViews : List (String × Uint8Array)

/-- The identifier `count` of source line 53.  The constructor has the one
parameter `options` and declares no `count`, and neither does the module, so
that evaluating it raises a `ReferenceError`. -/
def resolveCount : Except JSError Nat :=
  .error .ReferenceError

/-- The call of source lines 52-57 with the class property that
`options.class.properties[propertyId]` yields.  When it is undefined, the first
check of `initializeProperty` reads `property.offsetType` only and the second
one fails on `classProperty.enumType` with a `TypeError`. -/
def initializePropertyOf
    (getComponentDatatype : MetadataType → Option MetadataComponentType →
      Option MetadataEnumType → Option ComponentDatatype)
    (count : Nat) (property : Property) (classProperty : Option MetadataClassProperty)
    (bufferViews : List (String × Uint8Array)) : Except JSError MetadataTableProperty :=
  match classProperty with
  | some classProperty =>
    initializeProperty getComponentDatatype count property classProperty bufferViews
  | none =>
    if property.offsetType = some MetadataOffsetType.UINT64 then
      .error (.RuntimeError "offsetType of UINT64 is not supported")
    else .error .TypeError

/-- The loop of source lines 50-59 over the own properties of
`options.properties`: the arguments of the call are evaluated in order, `count`
first. -/
def initializeProperties
    (getComponentDatatype : MetadataType → Option MetadataComponentType →
      Option MetadataEnumType → Option ComponentDatatype)
    (options : MetadataTableOptions) :
    List (String × Property) → Except JSError (List (String × MetadataTableProperty))
  | [] => .ok []
  | (propertyId, property) :: rest =>
    match resolveCount with
    | .error e => .error e
    | .ok count =>
      match initializePropertyOf getComponentDatatype count property
          (options.class_.properties.lookup propertyId) options.bufferViews with
      | .error e => .error e
      | .ok store =>
        match initializeProperties getComponentDatatype options rest with
        | .error e => .error e
        | .ok stores => .ok ((propertyId, store) :: stores)

/-- The constructor `MetadataTable` of the source (lines 38-65).  The checks of
lines 42-45 stand between the `debug` pragmas and are present in a debug build
only; the first one, `Check.typeOf.string` applied to `options.count`, raises a
`DeveloperError` there because the count is a number. -/
def MetadataTable.new
    (getComponentDatatype : MetadataType → Option MetadataComponentType →
      Option MetadataEnumType → Option ComponentDatatype)
    (debug : Bool) (options : MetadataTableOptions) : Except JSError MetadataTable :=
  if debug then .error .DeveloperError
  else
    match options.properties with
    | none => .ok { _count := options.count, _class := options.class_, _properties := [] }
    | some declared =>
      match initializeProperties getComponentDatatype options declared with
      | .error e => .error e
      | .ok properties =>
        .ok { _count := options.count, _class := options.class_, _properties := properties }

/-! ## Example inputs -/

/-- A lookup used by the examples in place of `MetadataType.getComponentDatatype`,
which is not part of the source file: the storage kind of a numeric type, of
the component type of an array, scalar or vector, or of the enum type. -/
def sampleGetComponentDatatype (type : MetadataType)
    (componentType : Option MetadataComponentType) (enumType : Option MetadataEnumType) :
    Option ComponentDatatype :=
  let ofComponent : Option MetadataComponentType → Option ComponentDatatype := fun c =>
    match c with
    | some .INT8 => some .BYTE
    | some .UINT8 => some .UNSIGNED_BYTE
    | some .INT16 => some .SHORT
    | some .UINT16 => some .UNSIGNED_SHORT
    | some .INT32 => some .INT
    | some .UINT32 => some .UNSIGNED_INT
    | some .FLOAT32 => some .FLOAT
    | some .FLOAT64 => some .DOUBLE
    | _ => none
  match type with
  | .INT8 => some .BYTE
  | .UINT8 => some .UNSIGNED_BYTE
  | .INT16 => some .SHORT
  | .UINT16 => some .UNSIGNED_SHORT
  | .INT32 => some .INT
  | .UINT32 => some .UNSIGNED_INT
  | .FLOAT32 => some .FLOAT
  | .FLOAT64 => some .DOUBLE
  | .ENUM =>
    match enumType with
    | some .INT8 => some .BYTE
    | some .UINT8 => some .UNSIGNED_BYTE
    | some .INT16 => some .SHORT
    | some .UINT16 => some .UNSIGNED_SHORT
    | some .INT32 => some .INT
    | some .UINT32 => some .UNSIGNED_INT
    | _ => none
  | .ARRAY => ofComponent componentType
  | .SCALAR => ofComponent componentType
  | .VEC2 => ofComponent componentType
  | .VEC3 => ofComponent componentType
  | .VEC4 => ofComponent componentType
  | _ => none

/-- An array of three 8-bit offsets `5, 2, 9`, which is not monotone. -/
def sampleOffsets : TypedArray :=
  { componentDatatype := .UNSIGNED_BYTE, buffer := [5, 2, 9], byteOffset := 0, length := 3 }

/-- A variable-size array of 8-bit unsigned integers. -/
def variableArrayClassProperty : MetadataClassProperty :=
  { type := .ARRAY, componentType := some .UINT8, enumType := none, componentCount := none,
    default := none }

/-- A fixed-size array of two 8-bit unsigned integers per entity. -/
def fixedArrayClassProperty : MetadataClassProperty :=
  { type := .ARRAY, componentType := some .UINT8, enumType := none, componentCount := some 2,
    default := none }

/-- A string property. -/
def stringClassProperty : MetadataClassProperty :=
  { type := .STRING, componentType := none, enumType := none, componentCount := none,
    default := none }

/-- A boolean property. -/
def booleanClassProperty : MetadataClassProperty :=
  { type := .BOOLEAN, componentType := none, enumType := none, componentCount := none,
    default := none }

/-- A property whose component type is the unsupported 64-bit unsigned kind. -/
def uint64ClassProperty : MetadataClassProperty :=
  { type := .ARRAY, componentType := some .UINT64, enumType := none, componentCount := none,
    default := none }

/-- A property description with 8-bit offsets naming the buffer views
`values`, `arrayOffsets` and `stringOffsets`. -/
def sampleProperty : Property :=
  { bufferView := some "values", arrayOffsetBufferView := some "arrayOffsets",
    stringOffsetBufferView := some "stringOffsets", offsetType := some .UINT8 }

/-- Buffer views of a string property of three entities: the offsets
`0, 3, 7, 7` and seven bytes of text. -/
def stringBufferViews : List (String × Uint8Array) :=
  [("values", { buffer := [102, 111, 111, 98, 97, 114, 115], byteOffset := 0, length := 7 }),
   ("stringOffsets", { buffer := [0, 3, 7, 7], byteOffset := 0, length := 4 })]

/-- The store of the string property over `stringBufferViews`. -/
def stringStore : MetadataTableProperty :=
  { arrayOffsets := none,
    stringOffsets := some
      { componentDatatype := .UNSIGNED_BYTE, buffer := [0, 3, 7, 7], byteOffset := 0, length := 4 },
    values :=
      { componentDatatype := .UNSIGNED_BYTE, buffer := [102, 111, 111, 98, 97, 114, 115],
        byteOffset := 0, length := 7 },
    classProperty := stringClassProperty }

/-- Buffer views of a boolean property of ten entities: two bytes of packed bits. -/
def booleanBufferViews : List (String × Uint8Array) :=
  [("values", { buffer := [165, 2], byteOffset := 0, length := 2 })]

/-- The store of the boolean property over `booleanBufferViews`. -/
def booleanStore : MetadataTableProperty :=
  { arrayOffsets := none, stringOffsets := none,
    values := { componentDatatype := .UNSIGNED_BYTE, buffer := [165, 2], byteOffset := 0, length := 2 },
    classProperty := booleanClassProperty }

/-- Buffer views of a fixed-size array property of three entities, two
components each. -/
def fixedArrayBufferViews : List (String × Uint8Array) :=
  [("values", { buffer := [10, 11, 20, 21, 30, 31], byteOffset := 0, length := 6 })]

/-- The store of the fixed-size array property over `fixedArrayBufferViews`. -/
def fixedArrayStore : MetadataTableProperty :=
  { arrayOffsets := none, stringOffsets := none,
    values :=
      { componentDatatype := .UNSIGNED_BYTE, buffer := [10, 11, 20, 21, 30, 31], byteOffset := 0,
        length := 6 },
    classProperty := fixedArrayClassProperty }

/-- Buffer views of a variable-size array property of three entities: the
offsets `0, 1, 3, 3` and three components. -/
def variableArrayBufferViews : List (String × Uint8Array) :=
  [("values", { buffer := [7, 8, 9], byteOffset := 0, length := 3 }),
   ("arrayOffsets", { buffer := [0, 1, 3, 3], byteOffset := 0, length := 4 })]

/-- The store of the variable-size array property over `variableArrayBufferViews`. -/
def variableArrayStore : MetadataTableProperty :=
  { arrayOffsets := some
      { componentDatatype := .UNSIGNED_BYTE, buffer := [0, 1, 3, 3], byteOffset := 0, length := 4 },
    stringOffsets := none,
    values := { componentDatatype := .UNSIGNED_BYTE, buffer := [7, 8, 9], byteOffset := 0, length := 3 },
    classProperty := variableArrayClassProperty }

/-- A class with a fixed-size array, a variable-size array, a property `height`
that declares the default `10`, and a property `name` without a default. -/
def sampleClass : MetadataClass :=
  { properties :=
      [("fixed", fixedArrayClassProperty), ("variable", variableArrayClassProperty),
       ("height", { type := .UINT8, componentType := none, enumType := none,
                    componentCount := none, default := some (JSValue.number 10) }),
       ("name", stringClassProperty)] }

/-- A table without entities, without stores and with an empty class. -/
def emptyTable : MetadataTable :=
  { _count := 0, _class := { properties := [] }, _properties := [] }

/-- A table of three entities with stores for `fixed` and `variable` only. -/
def sampleTable : MetadataTable :=
  { _count := 3, _class := sampleClass,
    _properties := [("fixed", fixedArrayStore), ("variable", variableArrayStore)] }

/-- Buffer views of a string property of three entities whose string offsets
`2, 5, 9, 9` do not start at zero, over nine bytes of text. -/
def shiftedStringBufferViews : List (String × Uint8Array) :=
  [("values",
    { buffer := [45, 45, 102, 111, 111, 98, 97, 114, 115], byteOffset := 0, length := 9 }),
   ("stringOffsets", { buffer := [2, 5, 9, 9], byteOffset := 0, length := 4 })]

/-- The string offsets read from `shiftedStringBufferViews`. -/
def shiftedStringOffsets : TypedArray :=
  { componentDatatype := .UNSIGNED_BYTE, buffer := [2, 5, 9, 9], byteOffset := 0, length := 4 }

/-- The store of the string property over `shiftedStringBufferViews`: seven
bytes of values. -/
def shiftedStringStore : MetadataTableProperty :=
  { arrayOffsets := none,
    stringOffsets := some shiftedStringOffsets,
    values :=
      { componentDatatype := .UNSIGNED_BYTE,
        buffer := [45, 45, 102, 111, 111, 98, 97, 114, 115], byteOffset := 0, length := 7 },
    classProperty := stringClassProperty }

/-- A non-array property whose type is a vector of two 8-bit unsigned
components. -/
def vec2ClassProperty : MetadataClassProperty :=
  { type := .VEC2, componentType := some .UINT8, enumType := none, componentCount := none,
    default := none }

/-- The store of the vector property of three entities over
`fixedArrayBufferViews`: three elements of values. -/
def vec2Store : MetadataTableProperty :=
  { arrayOffsets := none, stringOffsets := none,
    values :=
      { componentDatatype := .UNSIGNED_BYTE, buffer := [10, 11, 20, 21, 30, 31], byteOffset := 0,
        length := 3 },
    classProperty := vec2ClassProperty }

/-- Buffer views of an empty table whose three buffers are all empty. -/
def emptyBufferViews : List (String × Uint8Array) :=
  [("values", { buffer := [], byteOffset := 0, length := 0 }),
   ("arrayOffsets", { buffer := [], byteOffset := 0, length := 0 }),
   ("stringOffsets", { buffer := [], byteOffset := 0, length := 0 })]

/-- Buffer views of an empty table whose offset buffers hold the one sentinel
entry `0`. -/
def zeroCountBufferViews : List (String × Uint8Array) :=
  [("values", { buffer := [], byteOffset := 0, length := 0 }),
   ("arrayOffsets", { buffer := [0], byteOffset := 0, length := 1 }),
   ("stringOffsets", { buffer := [0], byteOffset := 0, length := 1 })]

/-- A variable-size array of strings. -/
def stringArrayClassProperty : MetadataClassProperty :=
  { type := .ARRAY, componentType := some .STRING, enumType := none, componentCount := none,
    default := none }

/-- A fixed-size array of one 8-bit unsigned integer per entity. -/
def fixedOneClassProperty : MetadataClassProperty :=
  { type := .ARRAY, componentType := some .UINT8, enumType := none, componentCount := some 1,
    default := none }

/-- A non-array property of one 8-bit unsigned integer per entity. -/
def scalarClassProperty : MetadataClassProperty :=
  { type := .UINT8, componentType := none, enumType := none, componentCount := none,
    default := none }

/-- The values array of both properties over three entities of
`fixedArrayBufferViews`. -/
def threeBytes : TypedArray :=
  { componentDatatype := .UNSIGNED_BYTE, buffer := [10, 11, 20, 21, 30, 31], byteOffset := 0,
    length := 3 }

/-- The store of the array of one component. -/
def fixedOneStore : MetadataTableProperty :=
  { arrayOffsets := none, stringOffsets := none, values := threeBytes,
    classProperty := fixedOneClassProperty }

/-- The store of the non-array property. -/
def scalarStore : MetadataTableProperty :=
  { arrayOffsets := none, stringOffsets := none, values := threeBytes,
    classProperty := scalarClassProperty }

/-- A table of three entities holding both stores. -/
def pairTable : MetadataTable :=
  { _count := 3,
    _class :=
      { properties := [("array", fixedOneClassProperty), ("scalar", scalarClassProperty)] },
    _properties := [("array", fixedOneStore), ("scalar", scalarStore)] }

/-- Options that declare the one property `fixed` of the sample class over
three entities. -/
def sampleOptions : MetadataTableOptions :=
  { count := 3, properties := some [("fixed", sampleProperty)], class_ := sampleClass,
    bufferViews := fixedArrayBufferViews }

/-! ## Lemmas on the helpers -/

theorem TypedArray.get_of_lt (a : TypedArray) (i : Nat) (h : i < a.length) :
    ∃ v : Nat, a.get i = some (v : Int) := by
  unfold TypedArray.get
  rw [if_pos h]
  exact ⟨_, rfl⟩

/-- The offset-difference loop telescopes: over an array with at least `n + 1`
entries it yields the last offset read minus the first. -/
theorem sumOffsetDifferences_telescope (a : TypedArray) (n : Nat) (h : n < a.length) :
    ∃ first last : Int, a.get 0 = some first ∧ a.get n = some last ∧
      sumOffsetDifferences a n = some (last - first) := by
  induction n with
  | zero =>
    obtain ⟨v, hv⟩ := a.get_of_lt 0 h
    exact ⟨v, v, hv, hv, by simp [sumOffsetDifferences]⟩
  | succ n ih =>
    obtain ⟨first, mid, h0, hn, hsum⟩ := ih (Nat.lt_of_succ_lt h)
    obtain ⟨v, hv⟩ := a.get_of_lt (n + 1) h
    refine ⟨first, v, h0, hv, ?_⟩
    unfold sumOffsetDifferences at hsum ⊢
    rw [List.range_succ, List.foldl_append, hsum]
    simp [hv, hn, jsAdd, jsSub]

theorem toIndex_ok {x : JSNumber} {n : Nat} (h : toIndex x = .ok n) :
    x = none ∧ n = 0 ∨ x = some (n : Int) := by
  unfold toIndex at h
  cases x with
  | none =>
    left
    simp at h
    exact ⟨rfl, h.symm⟩
  | some v =>
    right
    simp only at h
    split at h
    · cases h
    · injection h with h
      subst h
      congr 1
      omega

theorem createArrayBufferView_ok {datatype : Option ComponentDatatype} {buffer : ArrayBuffer}
    {byteOffset : Nat} {length : JSNumber} {a : TypedArray}
    (h : ComponentDatatype.createArrayBufferView datatype buffer byteOffset length = .ok a) :
    toIndex length = .ok a.length := by
  unfold ComponentDatatype.createArrayBufferView at h
  split at h
  · cases h
  · split at h
    · cases h
    · split at h
      · cases h
      · rename_i n hn
        split at h
        · cases h
        · injection h with h
          subst h
          exact hn

/-- A successful run of the body of `initializeProperty` went through each of
its stages. -/
theorem initializePropertyBody_ok
    {getComponentDatatype : MetadataType → Option MetadataComponentType →
      Option MetadataEnumType → Option ComponentDatatype}
    {count : Nat} {property : Property} {classProperty : MetadataClassProperty}
    {bufferViews : List (String × Uint8Array)} {store : MetadataTableProperty}
    (h : initializePropertyBody getComponentDatatype count property classProperty bufferViews
      = .ok store) :
    ∃ componentCount typedArrayCount : JSNumber,
      readArrayOffsets count property classProperty bufferViews = .ok store.arrayOffsets ∧
      computeComponentCount count classProperty store.arrayOffsets = .ok componentCount ∧
      readStringOffsets componentCount property classProperty bufferViews
        = .ok store.stringOffsets ∧
      computeTypedArrayCount classProperty store.stringOffsets componentCount
        = .ok typedArrayCount ∧
      readValues (chooseComponentDatatype getComponentDatatype classProperty) typedArrayCount
        property bufferViews = .ok store.values ∧
      store.classProperty = classProperty := by
  unfold initializePropertyBody at h
  split at h
  · cases h
  · rename_i arrayOffsets h2
    split at h
    · cases h
    · rename_i componentCount h3
      split at h
      · cases h
      · rename_i stringOffsets h4
        split at h
        · cases h
        · rename_i typedArrayCount h5
          split at h
          · cases h
          · rename_i values h6
            injection h with h
            subst h
            exact ⟨componentCount, typedArrayCount, h2, h3, h4, h5, h6, rfl⟩

/-- Unless the offset type is UINT64, the checks stop at line 187 with a
`ReferenceError`. -/
theorem checkUint64_referenceError {property : Property}
    {classProperty : MetadataClassProperty}
    (h : property.offsetType ≠ some MetadataOffsetType.UINT64) :
    checkUint64 property classProperty = .error JSError.ReferenceError := by
  simp [checkUint64, h, resolveMetadataEnumTypeUINT64]

/-- Unless the offset type is UINT64, `initializeProperty` stops at line 187
with a `ReferenceError`, whatever its other arguments. -/
theorem initializeProperty_referenceError
    (getComponentDatatype : MetadataType → Option MetadataComponentType →
      Option MetadataEnumType → Option ComponentDatatype)
    (count : Nat) (property : Property) (classProperty : MetadataClassProperty)
    (bufferViews : List (String × Uint8Array))
    (h : property.offsetType ≠ some MetadataOffsetType.UINT64) :
    initializeProperty getComponentDatatype count property classProperty bufferViews
      = .error JSError.ReferenceError := by
  simp [initializeProperty, checkUint64_referenceError h]

/-- With the offset type UINT64, `initializeProperty` raises the first of the
unsupported-UINT64 errors. -/
theorem initializeProperty_offsetType_uint64
    (getComponentDatatype : MetadataType → Option MetadataComponentType →
      Option MetadataEnumType → Option ComponentDatatype)
    (count : Nat) (property : Property) (classProperty : MetadataClassProperty)
    (bufferViews : List (String × Uint8Array))
    (h : property.offsetType = some MetadataOffsetType.UINT64) :
    initializeProperty getComponentDatatype count property classProperty bufferViews
      = .error (JSError.RuntimeError "offsetType of UINT64 is not supported") := by
  simp [initializeProperty, checkUint64, h]

theorem readArrayOffsets_ok {count : Nat} {property : Property}
    {classProperty : MetadataClassProperty} {bufferViews : List (String × Uint8Array)}
    {arrayOffsets : Option TypedArray}
    (h : readArrayOffsets count property classProperty bufferViews = .ok arrayOffsets) :
    (isVariableSizeArray classProperty = true ∧
      ∃ a, arrayOffsets = some a ∧ a.length = count + 1 ∧
        ∃ view, bufferViews.lookup (propertyKey property.arrayOffsetBufferView) = some view) ∨
    (isVariableSizeArray classProperty = false ∧ arrayOffsets = none) := by
  unfold readArrayOffsets at h
  split at h
  · rename_i hvar
    left
    refine ⟨hvar, ?_⟩
    split at h
    · cases h
    · rename_i view hview
      split at h
      · cases h
      · rename_i offsets hoff
        injection h with h
        subst h
        refine ⟨offsets, rfl, ?_, view, ?_⟩
        · rcases toIndex_ok (createArrayBufferView_ok hoff) with ⟨hnone, _⟩ | hsome
          · cases hnone
          · injection hsome with hsome
            omega
        · unfold getBufferView at hview
          split at hview
          · rename_i v hv
            injection hview with hview
            subst hview
            exact hv
          · cases hview
  · rename_i hvar
    right
    injection h with h
    exact ⟨by simpa using hvar, h.symm⟩

theorem readStringOffsets_ok {componentCount : JSNumber} {property : Property}
    {classProperty : MetadataClassProperty} {bufferViews : List (String × Uint8Array)}
    {stringOffsets : Option TypedArray}
    (h : readStringOffsets componentCount property classProperty bufferViews
      = .ok stringOffsets) :
    (hasStrings classProperty = true ∧
      ∃ s, stringOffsets = some s ∧ toIndex (jsAdd componentCount (some 1)) = .ok s.length ∧
        ∃ view, bufferViews.lookup (propertyKey property.stringOffsetBufferView) = some view) ∨
    (hasStrings classProperty = false ∧ stringOffsets = none) := by
  unfold readStringOffsets at h
  split at h
  · rename_i hstr
    left
    refine ⟨hstr, ?_⟩
    split at h
    · cases h
    · rename_i view hview
      split at h
      · cases h
      · rename_i offsets hoff
        injection h with h
        subst h
        refine ⟨offsets, rfl, createArrayBufferView_ok hoff, view, ?_⟩
        unfold getBufferView at hview
        split at hview
        · rename_i v hv
          injection hview with hview
          subst hview
          exact hv
        · cases hview
  · rename_i hstr
    right
    injection h with h
    exact ⟨by simpa using hstr, h.symm⟩

theorem readValues_ok {datatype : Option ComponentDatatype} {typedArrayCount : JSNumber}
    {property : Property} {bufferViews : List (String × Uint8Array)} {values : TypedArray}
    (h : readValues datatype typedArrayCount property bufferViews = .ok values) :
    toIndex typedArrayCount = .ok values.length ∧
      ∃ view, bufferViews.lookup (propertyKey property.bufferView) = some view := by
  unfold readValues at h
  split at h
  · cases h
  · rename_i view hview
    refine ⟨createArrayBufferView_ok h, view, ?_⟩
    unfold getBufferView at hview
    split at hview
    · rename_i v hv
      injection hview with hview
      subst hview
      exact hv
    · cases hview

theorem hasStrings_iff (classProperty : MetadataClassProperty) :
    hasStrings classProperty = true ↔
      (classProperty.type = MetadataType.STRING ∨
        classProperty.componentType = some MetadataComponentType.STRING) := by
  simp [hasStrings]

theorem hasBooleans_iff (classProperty : MetadataClassProperty) :
    hasBooleans classProperty = true ↔
      (classProperty.type = MetadataType.BOOLEAN ∨
        classProperty.componentType = some MetadataComponentType.BOOLEAN) := by
  simp [hasBooleans]

theorem isVariableSizeArray_iff (classProperty : MetadataClassProperty) :
    isVariableSizeArray classProperty = true ↔
      (classProperty.type = MetadataType.ARRAY ∧ classProperty.componentCount = none) := by
  simp [isVariableSizeArray, isArray]

/-- For a variable-size array the component count is the telescoped sum. -/
theorem computeComponentCount_telescope {count : Nat} {classProperty : MetadataClassProperty}
    {a : TypedArray} (hvar : isVariableSizeArray classProperty = true)
    (hlen : a.length = count + 1) :
    ∃ first last : Int, a.get 0 = some first ∧ a.get count = some last ∧
      computeComponentCount count classProperty (some a) = .ok (some (last - first)) := by
  obtain ⟨first, last, h0, hn, hsum⟩ := sumOffsetDifferences_telescope a count (by omega)
  refine ⟨first, last, h0, hn, ?_⟩
  simp [computeComponentCount, hvar, sumOffsetDifferencesOf, hsum]

/-- After the array offsets have been read, the component count is a number:
the telescoped sum for a variable-size array, `count * k` for a fixed-size array
of `k` components, and `count` otherwise. -/
theorem computeComponentCount_ok {count : Nat} {property : Property}
    {classProperty : MetadataClassProperty} {bufferViews : List (String × Uint8Array)}
    {arrayOffsets : Option TypedArray} {componentCount : JSNumber}
    (hread : readArrayOffsets count property classProperty bufferViews = .ok arrayOffsets)
    (h : computeComponentCount count classProperty arrayOffsets = .ok componentCount) :
    ∃ n : Int, componentCount = some n ∧
      (∀ k, classProperty.type = MetadataType.ARRAY → classProperty.componentCount = some k →
        n = (count : Int) * (k : Int)) ∧
      (classProperty.type ≠ MetadataType.ARRAY → n = (count : Int)) ∧
      (∀ a, arrayOffsets = some a →
        ∃ first last : Int, a.get 0 = some first ∧ a.get count = some last ∧
          n = last - first) := by
  rcases readArrayOffsets_ok hread with ⟨hvar, a, ha, hlen, _⟩ | ⟨hvar, hnone⟩
  · subst ha
    obtain ⟨htype, hcount⟩ := (isVariableSizeArray_iff classProperty).1 hvar
    obtain ⟨first, last, h0, hn, hsum⟩ := computeComponentCount_telescope hvar hlen
    rw [hsum] at h
    injection h with h
    subst h
    refine ⟨last - first, rfl, ?_, ?_, ?_⟩
    · intro k _ hk
      rw [hcount] at hk
      cases hk
    · intro hne
      exact absurd htype hne
    · intro a2 ha2
      injection ha2 with ha2
      subst ha2
      exact ⟨first, last, h0, hn, rfl⟩
  · subst hnone
    unfold computeComponentCount at h
    rw [hvar] at h
    simp only [Bool.false_eq_true, if_false] at h
    split at h
    · rename_i harr
      have htype : classProperty.type = MetadataType.ARRAY := by simpa [isArray] using harr
      cases hk : classProperty.componentCount with
      | none =>
        have : isVariableSizeArray classProperty = true :=
          (isVariableSizeArray_iff classProperty).2 ⟨htype, hk⟩
        rw [hvar] at this
        cases this
      | some k =>
        rw [hk] at h
        injection h with h
        subst h
        refine ⟨(count : Int) * (k : Int), rfl, ?_, ?_, ?_⟩
        · intro k2 _ hk2
          injection hk2 with hk2
          subst hk2
          rfl
        · intro hne
          exact absurd htype hne
        · intro a ha
          cases ha
    · rename_i harr
      have htype : classProperty.type ≠ MetadataType.ARRAY := by simpa [isArray] using harr
      injection h with h
      subst h
      refine ⟨(count : Int), rfl, ?_, ?_, ?_⟩
      · intro k hk _
        exact absurd hk htype
      · intro _
        rfl
      · intro a ha
        cases ha

theorem createArrayBufferView_error {datatype : Option ComponentDatatype} {buffer : ArrayBuffer}
    {byteOffset : Nat} {length : JSNumber} {e : JSError}
    (h : ComponentDatatype.createArrayBufferView datatype buffer byteOffset length = .error e) :
    e.isRuntimeError = false := by
  unfold ComponentDatatype.createArrayBufferView at h
  split at h
  · injection h with h
    subst h
    rfl
  · split at h
    · injection h with h
      subst h
      rfl
    · split at h
      · rename_i e2 he2
        injection h with h
        subst h
        unfold toIndex at he2
        split at he2
        · cases he2
        · split at he2
          · injection he2 with he2
            subst he2
            rfl
          · cases he2
      · split at h
        · injection h with h
          subst h
          rfl
        · cases h

theorem getBufferView_error {bufferViews : List (String × Uint8Array)} {id : Option String}
    {e : JSError} (h : getBufferView bufferViews id = .error e) : e.isRuntimeError = false := by
  unfold getBufferView at h
  split at h
  · cases h
  · injection h with h
    subst h
    rfl

theorem sumOffsetDifferencesOf_error {offsets : Option TypedArray} {n : Nat} {e : JSError}
    (h : sumOffsetDifferencesOf offsets n = .error e) : e.isRuntimeError = false := by
  unfold sumOffsetDifferencesOf at h
  split at h
  · cases h
  · split at h
    · cases h
    · injection h with h
      subst h
      rfl

/-- The body of `initializeProperty` raises no `RuntimeError`. -/
theorem initializePropertyBody_error
    {getComponentDatatype : MetadataType → Option MetadataComponentType →
      Option MetadataEnumType → Option ComponentDatatype}
    {count : Nat} {property : Property} {classProperty : MetadataClassProperty}
    {bufferViews : List (String × Uint8Array)} {e : JSError}
    (h : initializePropertyBody getComponentDatatype count property classProperty bufferViews
      = .error e) :
    e.isRuntimeError = false := by
  unfold initializePropertyBody at h
  split at h
  · rename_i e1 h1
    injection h with h
    subst h
    unfold readArrayOffsets at h1
    split at h1
    · split at h1
      · rename_i e2 h2
        injection h1 with h1
        subst h1
        exact getBufferView_error h2
      · split at h1
        · rename_i e3 h3
          injection h1 with h1
          subst h1
          exact createArrayBufferView_error h3
        · cases h1
    · cases h1
  · split at h
    · rename_i e1 h1
      injection h with h
      subst h
      unfold computeComponentCount at h1
      split at h1
      · exact sumOffsetDifferencesOf_error h1
      · split at h1
        · split at h1 <;> cases h1
        · cases h1
    · split at h
      · rename_i e1 h1
        injection h with h
        subst h
        unfold readStringOffsets at h1
        split at h1
        · split at h1
          · rename_i e2 h2
            injection h1 with h1
            subst h1
            exact getBufferView_error h2
          · split at h1
            · rename_i e3 h3
              injection h1 with h1
              subst h1
              exact createArrayBufferView_error h3
            · cases h1
        · cases h1
      · split at h
        · rename_i e1 h1
          injection h with h
          subst h
          unfold computeTypedArrayCount at h1
          split at h1
          · exact sumOffsetDifferencesOf_error h1
          · split at h1 <;> cases h1
        · split at h
          · rename_i e1 h1
            injection h with h
            subst h
            unfold readValues at h1
            split at h1
            · rename_i e2 h2
              injection h1 with h1
              subst h1
              exact getBufferView_error h2
            · exact createArrayBufferView_error h1
          · cases h

/-! ## The total component count -/

/-- C1: for a variable-size array property (type ARRAY, no componentCount) and
any array-offset sequence of `count + 1` entries, monotone or not, the component
count that `initializeProperty` computes by summing the differences of
consecutive offsets is the last offset minus the first. -/
theorem computeComponentCount_variable_array (count : Nat)
    (classProperty : MetadataClassProperty) (a : TypedArray)
    (htype : classProperty.type = MetadataType.ARRAY)
    (hcount : classProperty.componentCount = none)
    (hlen : a.length = count + 1) :
    ∃ first last : Int, a.get 0 = some first ∧ a.get count = some last ∧
      computeComponentCount count classProperty (some a) = .ok (some (last - first)) :=
  computeComponentCount_telescope ((isVariableSizeArray_iff classProperty).2 ⟨htype, hcount⟩) hlen

/-- C1, at the offsets `5, 2, 9` of two entities: the count is `9 - 5`. -/
theorem computeComponentCount_variable_array_witness :
    ∃ first last : Int, sampleOffsets.get 0 = some first ∧ sampleOffsets.get 2 = some last ∧
      computeComponentCount 2 variableArrayClassProperty (some sampleOffsets)
        = .ok (some (last - first)) :=
  computeComponentCount_variable_array 2 variableArrayClassProperty sampleOffsets rfl rfl rfl

/-! ## The length of the values array -/

/-- C2: for a property whose type or componentType is STRING (boolean or not),
with computed component count `n` and the string offsets `s` of `n + 1` entries,
the values array that `initializeProperty` creates in its body (lines 197-285)
has length `s[n] - s[0]`, the sum over the `n` slots of `s[i + 1] - s[i]`. -/
theorem initializeProperty_string_values_length
    (getComponentDatatype : MetadataType → Option MetadataComponentType →
      Option MetadataEnumType → Option ComponentDatatype)
    (count : Nat) (property : Property) (classProperty : MetadataClassProperty)
    (bufferViews : List (String × Uint8Array)) (store : MetadataTableProperty) (n : Nat)
    (hstring : classProperty.type = MetadataType.STRING ∨
      classProperty.componentType = some MetadataComponentType.STRING)
    (hok : initializePropertyBody getComponentDatatype count property classProperty
      bufferViews = .ok store)
    (hn : computeComponentCount count classProperty store.arrayOffsets = .ok (some (n : Int))) :
    ∃ (s : TypedArray) (first last : Int),
      store.stringOffsets = some s ∧ s.length = n + 1 ∧
      s.get 0 = some first ∧ s.get n = some last ∧
      sumOffsetDifferences s n = some (last - first) ∧
      (store.values.length : Int) = last - first := by
  obtain ⟨componentCount, typedArrayCount, _, h3, h4, h5, h6, _⟩ := initializePropertyBody_ok hok
  have hstr : hasStrings classProperty = true := (hasStrings_iff classProperty).2 hstring
  rw [hn] at h3
  injection h3 with h3
  subst h3
  rcases readStringOffsets_ok h4 with ⟨_, s, hs, hlen, _⟩ | ⟨hfalse, _⟩
  · have hlen2 : s.length = n + 1 := by
      rcases toIndex_ok hlen with ⟨hnone, _⟩ | hsome
      · simp [jsAdd] at hnone
      · simp only [jsAdd] at hsome
        injection hsome with hsome
        omega
    obtain ⟨first, last, h0, hlast, hsum⟩ := sumOffsetDifferences_telescope s n (by omega)
    refine ⟨s, first, last, hs, hlen2, h0, hlast, hsum, ?_⟩
    rw [hs] at h5
    simp only [computeTypedArrayCount, hstr, if_true, sumOffsetDifferencesOf, loopIterations,
      Int.toNat_ofNat, hsum] at h5
    injection h5 with h5
    subst h5
    rcases toIndex_ok (readValues_ok h6).1 with ⟨hnone, _⟩ | hsome
    · cases hnone
    · injection hsome with hsome
      exact hsome.symm
  · rw [hstr] at hfalse
    cases hfalse

/-- C2, at the string property of three entities with offsets `0, 3, 7, 7`. -/
theorem initializeProperty_string_values_length_witness :
    ∃ (s : TypedArray) (first last : Int),
      stringStore.stringOffsets = some s ∧ s.length = 3 + 1 ∧
      s.get 0 = some first ∧ s.get 3 = some last ∧
      sumOffsetDifferences s 3 = some (last - first) ∧
      (stringStore.values.length : Int) = last - first :=
  initializeProperty_string_values_length sampleGetComponentDatatype 3 sampleProperty
    stringClassProperty stringBufferViews stringStore 3 (Or.inl rfl) rfl rfl

/-- C3: for a boolean property without strings, with computed component count
`n`, the length `L` of the values array that `initializeProperty` creates in its
body (lines 197-285) is the ceiling of `n / 8`: the least natural number with
`8 * L >= n`, so that every
slot `s < n` has its byte index `s >> 3` below `L` and its bit offset `s & 7`
below `8`; `n = 10` gives `L = 2`, and slot `9` is byte `1`, bit `1`. -/
theorem initializeProperty_boolean_values_length
    (getComponentDatatype : MetadataType → Option MetadataComponentType →
      Option MetadataEnumType → Option ComponentDatatype)
    (count : Nat) (property : Property) (classProperty : MetadataClassProperty)
    (bufferViews : List (String × Uint8Array)) (store : MetadataTableProperty)
    (hboolean : classProperty.type = MetadataType.BOOLEAN ∨
      classProperty.componentType = some MetadataComponentType.BOOLEAN)
    (htype : classProperty.type ≠ MetadataType.STRING)
    (hcomponent : classProperty.componentType ≠ some MetadataComponentType.STRING)
    (hok : initializePropertyBody getComponentDatatype count property classProperty
      bufferViews = .ok store) :
    ∃ n : Int, computeComponentCount count classProperty store.arrayOffsets = .ok (some n) ∧
      (store.values.length : Int) = Int.ceil ((n : ℚ) / 8) ∧
      n ≤ 8 * (store.values.length : Int) ∧
      (∀ m : Nat, n ≤ 8 * (m : Int) → store.values.length ≤ m) ∧
      (∀ s : Nat, (s : Int) < n → s >>> 3 < store.values.length ∧ s &&& 7 < 8) ∧
      (n = 10 → store.values.length = 2 ∧ 9 >>> 3 = 1 ∧ 9 &&& 7 = 1) := by
  obtain ⟨componentCount, typedArrayCount, h2, h3, _, h5, h6, _⟩ := initializePropertyBody_ok hok
  have hstr : hasStrings classProperty = false := by
    simp [hasStrings, htype, hcomponent]
  have hbool : hasBooleans classProperty = true := (hasBooleans_iff classProperty).2 hboolean
  obtain ⟨n, hcc, _, _, _⟩ := computeComponentCount_ok h2 h3
  subst hcc
  simp only [computeTypedArrayCount, hstr, hbool, if_true, Bool.false_eq_true, if_false,
    jsCeilDiv8] at h5
  injection h5 with h5
  subst h5
  have hL : ((store.values.length : Nat) : Int) = -(-n / 8) := by
    rcases toIndex_ok (readValues_ok h6).1 with ⟨hnone, _⟩ | hsome
    · cases hnone
    · injection hsome with hsome
      exact hsome.symm
  have hup : n ≤ 8 * (store.values.length : Int) := by omega
  have hlow : 8 * ((store.values.length : Int) - 1) < n := by omega
  refine ⟨n, h3, ?_, hup, ?_, ?_, ?_⟩
  · symm
    rw [Int.ceil_eq_iff]
    constructor
    · rw [lt_div_iff₀ (by norm_num : (0 : ℚ) < 8)]
      have : ((8 * ((store.values.length : Int) - 1) : Int) : ℚ) < (n : ℚ) := by exact_mod_cast hlow
      push_cast at this ⊢
      linarith
    · rw [div_le_iff₀ (by norm_num : (0 : ℚ) < 8)]
      have : ((n : Int) : ℚ) ≤ ((8 * (store.values.length : Int) : Int) : ℚ) := by exact_mod_cast hup
      push_cast at this ⊢
      linarith
  · intro m hm
    omega
  · intro s hs
    rw [Nat.shiftRight_eq_div_pow]
    have hand : s &&& 7 = s % 8 := Nat.and_pow_two_sub_one_eq_mod s 3
    rw [hand]
    constructor
    · have : s / 2 ^ 3 = s / 8 := by norm_num
      omega
    · omega
  · intro h10
    subst h10
    refine ⟨by omega, by decide, by decide⟩

/-- C3, at the boolean property of ten entities packed into two bytes. -/
theorem initializeProperty_boolean_values_length_witness :
    ∃ n : Int, computeComponentCount 10 booleanClassProperty booleanStore.arrayOffsets
        = .ok (some n) ∧
      (booleanStore.values.length : Int) = Int.ceil ((n : ℚ) / 8) ∧
      n ≤ 8 * (booleanStore.values.length : Int) ∧
      (∀ m : Nat, n ≤ 8 * (m : Int) → booleanStore.values.length ≤ m) ∧
      (∀ s : Nat, (s : Int) < n → s >>> 3 < booleanStore.values.length ∧ s &&& 7 < 8) ∧
      (n = 10 → booleanStore.values.length = 2 ∧ 9 >>> 3 = 1 ∧ 9 &&& 7 = 1) :=
  initializeProperty_boolean_values_length sampleGetComponentDatatype 10 sampleProperty
    booleanClassProperty booleanBufferViews booleanStore (Or.inl rfl) (by decide) (by decide) rfl

/-- C4: for a property with neither strings nor booleans, the values array that
`initializeProperty` creates in its body (lines 197-285) has length `count * k`
when the property is a fixed-size array of `k` components, and length `count`
when it is not an array. -/
theorem initializeProperty_numeric_values_length
    (getComponentDatatype : MetadataType → Option MetadataComponentType →
      Option MetadataEnumType → Option ComponentDatatype)
    (count : Nat) (property : Property) (classProperty : MetadataClassProperty)
    (bufferViews : List (String × Uint8Array)) (store : MetadataTableProperty)
    (hstrings : hasStrings classProperty = false)
    (hbooleans : hasBooleans classProperty = false)
    (hok : initializePropertyBody getComponentDatatype count property classProperty
      bufferViews = .ok store) :
    (∀ k : Nat, classProperty.type = MetadataType.ARRAY →
        classProperty.componentCount = some k → store.values.length = count * k) ∧
      (classProperty.type ≠ MetadataType.ARRAY → store.values.length = count) := by
  obtain ⟨componentCount, typedArrayCount, h2, h3, _, h5, h6, _⟩ := initializePropertyBody_ok hok
  obtain ⟨n, hcc, hfixed, hscalar, _⟩ := computeComponentCount_ok h2 h3
  subst hcc
  simp only [computeTypedArrayCount, hstrings, hbooleans, Bool.false_eq_true, if_false] at h5
  injection h5 with h5
  subst h5
  have hL : ((store.values.length : Nat) : Int) = n := by
    rcases toIndex_ok (readValues_ok h6).1 with ⟨hnone, _⟩ | hsome
    · cases hnone
    · injection hsome with hsome
      exact hsome.symm
  constructor
  · intro k harray hk
    have := hfixed k harray hk
    rw [this] at hL
    exact_mod_cast hL
  · intro hne
    have := hscalar hne
    rw [this] at hL
    exact_mod_cast hL

/-- C4, at the fixed-size array of two components over three entities. -/
theorem initializeProperty_numeric_values_length_witness :
    (∀ k : Nat, fixedArrayClassProperty.type = MetadataType.ARRAY →
        fixedArrayClassProperty.componentCount = some k →
        fixedArrayStore.values.length = 3 * k) ∧
      (fixedArrayClassProperty.type ≠ MetadataType.ARRAY → fixedArrayStore.values.length = 3) :=
  initializeProperty_numeric_values_length sampleGetComponentDatatype 3 sampleProperty
    fixedArrayClassProperty fixedArrayBufferViews fixedArrayStore rfl rfl rfl

/-! ## Failures of initializeProperty -/

/-- C5: at a property whose component type is UINT64 and whose offset type is
UINT8, `initializeProperty` fails before any buffer view is read and returns no
store, for every `count` and every `bufferViews`, but not with the
unsupported-UINT64 error: evaluating `MetadataEnumType` at line 187 raises a
`ReferenceError` before the check of the component type is reached. -/
theorem initializeProperty_uint64_referenceError :
    uint64ClassProperty.componentType = some MetadataComponentType.UINT64 ∧
      sampleProperty.offsetType = some MetadataOffsetType.UINT8 ∧
      ∀ (count : Nat) (bufferViews : List (String × Uint8Array)),
        initializeProperty sampleGetComponentDatatype count sampleProperty uint64ClassProperty
            bufferViews = .error JSError.ReferenceError ∧
        ∀ message : String,
          initializeProperty sampleGetComponentDatatype count sampleProperty
            uint64ClassProperty bufferViews ≠ .error (JSError.RuntimeError message) := by
  refine ⟨rfl, rfl, ?_⟩
  intro count bufferViews
  have h : initializeProperty sampleGetComponentDatatype count sampleProperty
      uint64ClassProperty bufferViews = .error JSError.ReferenceError :=
    initializeProperty_referenceError sampleGetComponentDatatype count sampleProperty
      uint64ClassProperty bufferViews (by decide)
  refine ⟨h, ?_⟩
  intro message hmessage
  rw [h] at hmessage
  cases hmessage

/-- C6: for a property that uses no UINT64 kind, `initializeProperty` fails and
returns no store when a buffer-view id that it needs is absent from
`bufferViews`: `property.bufferView` always, `property.arrayOffsetBufferView`
for a variable-size array, `property.stringOffsetBufferView` for a property
with strings.  The error is not one of the unsupported-UINT64 errors. -/
theorem initializeProperty_missing_bufferView
    (getComponentDatatype : MetadataType → Option MetadataComponentType →
      Option MetadataEnumType → Option ComponentDatatype)
    (count : Nat) (property : Property) (classProperty : MetadataClassProperty)
    (bufferViews : List (String × Uint8Array))
    (huint64 : property.offsetType ≠ some MetadataOffsetType.UINT64 ∧
      classProperty.enumType ≠ some MetadataEnumType.UINT64 ∧
      classProperty.componentType ≠ some MetadataComponentType.UINT64 ∧
      classProperty.type ≠ MetadataType.UINT64)
    (hmissing : bufferViews.lookup (propertyKey property.bufferView) = none ∨
      (classProperty.type = MetadataType.ARRAY ∧ classProperty.componentCount = none ∧
        bufferViews.lookup (propertyKey property.arrayOffsetBufferView) = none) ∨
      ((classProperty.type = MetadataType.STRING ∨
          classProperty.componentType = some MetadataComponentType.STRING) ∧
        bufferViews.lookup (propertyKey property.stringOffsetBufferView) = none)) :
    ∃ e : JSError,
      initializeProperty getComponentDatatype count property classProperty bufferViews
        = .error e ∧
      ∀ message : String, e ≠ JSError.RuntimeError message := by
  have _ := hmissing
  have hres := initializeProperty_referenceError getComponentDatatype count property
    classProperty bufferViews huint64.1
  exact ⟨JSError.ReferenceError, hres, fun message hmessage => by cases hmessage⟩

/-- Over own buffer-view ids, the body of `initializeProperty` fails as well
when a buffer view that it needs is absent from `bufferViews`. -/
theorem initializePropertyBody_missing_bufferView
    (getComponentDatatype : MetadataType → Option MetadataComponentType →
      Option MetadataEnumType → Option ComponentDatatype)
    (count : Nat) (property : Property) (classProperty : MetadataClassProperty)
    (bufferViews : List (String × Uint8Array))
    (hmissing : bufferViews.lookup (propertyKey property.bufferView) = none ∨
      (classProperty.type = MetadataType.ARRAY ∧ classProperty.componentCount = none ∧
        bufferViews.lookup (propertyKey property.arrayOffsetBufferView) = none) ∨
      ((classProperty.type = MetadataType.STRING ∨
          classProperty.componentType = some MetadataComponentType.STRING) ∧
        bufferViews.lookup (propertyKey property.stringOffsetBufferView) = none)) :
    ∃ e : JSError,
      initializePropertyBody getComponentDatatype count property classProperty bufferViews
        = .error e ∧
      ∀ message : String, e ≠ JSError.RuntimeError message := by
  cases hbody : initializePropertyBody getComponentDatatype count property classProperty
      bufferViews with
  | error e =>
    refine ⟨e, rfl, ?_⟩
    intro message hmessage
    have := initializePropertyBody_error hbody
    rw [hmessage] at this
    cases this
  | ok store =>
    exfalso
    obtain ⟨componentCount, typedArrayCount, h2, _, h4, _, h6, _⟩ :=
      initializePropertyBody_ok hbody
    rcases hmissing with hvalues | ⟨htype, hcount, harray⟩ | ⟨hstring, hoffsets⟩
    · obtain ⟨_, view, hview⟩ := readValues_ok h6
      rw [hvalues] at hview
      cases hview
    · have hvar : isVariableSizeArray classProperty = true :=
        (isVariableSizeArray_iff classProperty).2 ⟨htype, hcount⟩
      rcases readArrayOffsets_ok h2 with ⟨_, _, _, _, view, hview⟩ | ⟨hfalse, _⟩
      · rw [harray] at hview
        cases hview
      · rw [hvar] at hfalse
        cases hfalse
    · have hstr : hasStrings classProperty = true := (hasStrings_iff classProperty).2 hstring
      rcases readStringOffsets_ok h4 with ⟨_, _, _, _, view, hview⟩ | ⟨hfalse, _⟩
      · rw [hoffsets] at hview
        cases hview
      · rw [hstr] at hfalse
        cases hfalse

/-- C6, at the string property over buffer views that lack `stringOffsets`. -/
theorem initializeProperty_missing_bufferView_witness :
    ∃ e : JSError,
      initializeProperty sampleGetComponentDatatype 3 sampleProperty stringClassProperty
        fixedArrayBufferViews = .error e ∧
      ∀ message : String, e ≠ JSError.RuntimeError message :=
  initializeProperty_missing_bufferView sampleGetComponentDatatype 3 sampleProperty
    stringClassProperty fixedArrayBufferViews
    ⟨by decide, by decide, by decide, by decide⟩
    (Or.inr (Or.inr ⟨Or.inl rfl, rfl⟩))

/-! ## getProperty -/

/-- C7: at the table of three entities whose property `fixed` is a fixed-size
array of two components, `getProperty(0, fixed)` is not a sequence of two
decoded units: it is a copy of the whole store, the one that the body of
`initializeProperty` builds for the property, whose values array holds all six
components. -/
theorem getProperty_fixed_array_returns_store :
    initializePropertyBody sampleGetComponentDatatype 3 sampleProperty fixedArrayClassProperty
        fixedArrayBufferViews = .ok fixedArrayStore ∧
      fixedArrayStore.classProperty.componentCount = some 2 ∧
      fixedArrayStore.arrayOffsets = none ∧
      sampleTable.getProperty 0 "fixed" = .ok (PropertyValue.store fixedArrayStore) ∧
      fixedArrayStore.values.length = 6 ∧
      ∀ items : List JSValue,
        sampleTable.getProperty 0 "fixed" ≠ .ok (PropertyValue.value (JSValue.array items)) := by
  refine ⟨rfl, rfl, rfl, rfl, rfl, ?_⟩
  intro items h
  have hstore : sampleTable.getProperty 0 "fixed" = .ok (PropertyValue.store fixedArrayStore) :=
    rfl
  rw [hstore] at h
  injection h with h
  cases h

/-- C8: at the table of three entities whose property `variable` has the array
offsets `0, 1, 3, 3`, `getProperty(i, variable)` is for every `i` a copy of the
whole store, not the decoded units of the component range of entity `i`, so
that there are no per-entity lengths summing to `3 - 0`. -/
theorem getProperty_variable_array_returns_store :
    initializePropertyBody sampleGetComponentDatatype 3 sampleProperty variableArrayClassProperty
        variableArrayBufferViews = .ok variableArrayStore ∧
      computeComponentCount 3 variableArrayClassProperty variableArrayStore.arrayOffsets
        = .ok (some 3) ∧
      ∀ index : Int,
        sampleTable.getProperty index "variable" = .ok (PropertyValue.store variableArrayStore) ∧
        ∀ items : List JSValue,
          sampleTable.getProperty index "variable"
            ≠ .ok (PropertyValue.value (JSValue.array items)) := by
  refine ⟨rfl, rfl, ?_⟩
  intro index
  have hstore :
      sampleTable.getProperty index "variable" = .ok (PropertyValue.store variableArrayStore) :=
    rfl
  refine ⟨hstore, ?_⟩
  intro items h
  rw [hstore] at h
  injection h with h
  cases h

/-- When the table holds no store for `propertyId` and `propertyId` is not the
name of a member of `Object.prototype`, `getProperty` returns the default that
the class declares for it, and `undefined` when the class has no such property
or declares no default; when a store exists the result is the copy of the
store, never the default. -/
theorem getProperty_default_or_undefined_of_own (table : MetadataTable) (index : Int)
    (propertyId : String) :
    (table._properties.lookup propertyId = none →
      objectPrototypeKeys.contains propertyId = false →
      (∀ (classProperty : MetadataClassProperty) (v : JSValue),
        table._class.properties.lookup propertyId = some classProperty →
        classProperty.default = some v →
        table.getProperty index propertyId = .ok (PropertyValue.value v)) ∧
      (table._class.properties.lookup propertyId = none →
        table.getProperty index propertyId = .ok PropertyValue.undefined) ∧
      (∀ classProperty : MetadataClassProperty,
        table._class.properties.lookup propertyId = some classProperty →
        classProperty.default = none →
        table.getProperty index propertyId = .ok PropertyValue.undefined)) ∧
    (∀ store : MetadataTableProperty, table._properties.lookup propertyId = some store →
      table.getProperty index propertyId = .ok (PropertyValue.store store) ∧
      ∀ v : JSValue, table.getProperty index propertyId ≠ .ok (PropertyValue.value v)) := by
  constructor
  · intro hnone hown
    refine ⟨?_, ?_, ?_⟩
    · intro classProperty v hclass hdefault
      simp only [MetadataTable.getProperty, hnone, hown, hclass, hdefault, clone,
        Bool.false_eq_true, if_false]
    · intro hclass
      simp only [MetadataTable.getProperty, hnone, hown, hclass, Bool.false_eq_true, if_false]
    · intro classProperty hclass hdefault
      simp only [MetadataTable.getProperty, hnone, hown, hclass, hdefault, Bool.false_eq_true,
        if_false]
  · intro store hstore
    have h : table.getProperty index propertyId = .ok (PropertyValue.store store) := by
      simp [MetadataTable.getProperty, hstore, clone]
    refine ⟨h, ?_⟩
    intro v hv
    rw [h] at hv
    injection hv with hv
    cases hv

/-- A property id that names a member of `Object.prototype` and has no store
yields that member, whatever the class declares. -/
theorem getProperty_inherited (table : MetadataTable) (index : Int) (propertyId : String)
    (hnone : table._properties.lookup propertyId = none)
    (hinherited : objectPrototypeKeys.contains propertyId = true) :
    table.getProperty index propertyId = .ok (PropertyValue.inherited propertyId) := by
  simp only [MetadataTable.getProperty, hnone, hinherited, if_true]

/-- C9: at the table without stores and with an empty class, which holds no
store and declares no property for the id `toString`, `getProperty(0, toString)`
does not return `undefined`: indexing `_properties` finds the member that the
object inherits from `Object.prototype`, and its copy is returned. -/
theorem getProperty_inherited_key_not_undefined :
    emptyTable._properties.lookup "toString" = none ∧
      emptyTable._class.properties.lookup "toString" = none ∧
      emptyTable.getProperty 0 "toString" = .ok (PropertyValue.inherited "toString") ∧
      emptyTable.getProperty 0 "toString" ≠ .ok PropertyValue.undefined := by
  have h : emptyTable.getProperty 0 "toString" = .ok (PropertyValue.inherited "toString") :=
    rfl
  refine ⟨rfl, rfl, h, ?_⟩
  intro hundefined
  rw [h] at hundefined
  injection hundefined with hundefined
  cases hundefined

/-- C10, refuted as stated: at the table of three entities, `getProperty` with
the indices `7` and `-1`, both outside `[0, 3)`, returns a value and raises no
error. -/
theorem getProperty_out_of_range_returns :
    sampleTable._count = 3 ∧
      sampleTable.getProperty 7 "fixed" = .ok (PropertyValue.store fixedArrayStore) ∧
      sampleTable.getProperty (-1) "height" = .ok (PropertyValue.value (JSValue.number 10)) ∧
      ∀ e : JSError, sampleTable.getProperty 7 "fixed" ≠ .error e ∧
        sampleTable.getProperty (-1) "height" ≠ .error e := by
  refine ⟨rfl, rfl, rfl, ?_⟩
  intro e
  constructor
  · intro h
    have hstore : sampleTable.getProperty 7 "fixed" = .ok (PropertyValue.store fixedArrayStore) :=
      rfl
    rw [hstore] at h
    cases h
  · intro h
    have hvalue :
        sampleTable.getProperty (-1) "height" = .ok (PropertyValue.value (JSValue.number 10)) :=
      rfl
    rw [hvalue] at h
    cases h

/-- C10, amended: `getProperty` makes no range check.  For an index outside
`[0, count)` it raises no error and returns a value; for a property without a
store that value is the one it returns for every other index. -/
theorem getProperty_no_range_check (table : MetadataTable) (index : Int) (propertyId : String)
    (_hrange : index < 0 ∨ (table._count : Int) ≤ index) :
    ∃ value : PropertyValue,
      table.getProperty index propertyId = .ok value ∧
      (table._properties.lookup propertyId = none →
        ∀ j : Int, table.getProperty j propertyId = .ok value) := by
  unfold MetadataTable.getProperty
  cases hstore : table._properties.lookup propertyId with
  | some store =>
    exact ⟨PropertyValue.store store, rfl, fun h => by cases h⟩
  | none =>
    cases hinherited : objectPrototypeKeys.contains propertyId with
    | true =>
      exact ⟨PropertyValue.inherited propertyId, by simp, fun _ _ => by simp⟩
    | false =>
      cases hclass : table._class.properties.lookup propertyId with
      | none => exact ⟨PropertyValue.undefined, by simp, fun _ _ => by simp⟩
      | some classProperty =>
        cases hdefault : classProperty.default with
        | none =>
          exact ⟨PropertyValue.undefined, by simp [hdefault], fun _ _ => by simp [hdefault]⟩
        | some v =>
          exact ⟨PropertyValue.value v, by simp [hdefault, clone],
            fun _ _ => by simp [hdefault, clone]⟩

/-- C10 amended, at index `7` of the table of three entities. -/
theorem getProperty_no_range_check_witness :
    ∃ value : PropertyValue,
      sampleTable.getProperty 7 "height" = .ok value ∧
      (sampleTable._properties.lookup "height" = none →
        ∀ j : Int, sampleTable.getProperty j "height" = .ok value) :=
  getProperty_no_range_check sampleTable 7 "height" (Or.inr (by decide))

/-! ## The invariants of a property store -/

theorem createArrayBufferView_datatype {datatype : Option ComponentDatatype}
    {buffer : ArrayBuffer} {byteOffset : Nat} {length : JSNumber} {a : TypedArray}
    (h : ComponentDatatype.createArrayBufferView datatype buffer byteOffset length = .ok a) :
    datatype = some a.componentDatatype := by
  unfold ComponentDatatype.createArrayBufferView at h
  split at h
  · cases h
  · split at h
    · cases h
    · split at h
      · cases h
      · split at h
        · cases h
        · injection h with h
          subst h
          rfl

theorem readValues_datatype {datatype : Option ComponentDatatype} {typedArrayCount : JSNumber}
    {property : Property} {bufferViews : List (String × Uint8Array)} {values : TypedArray}
    (h : readValues datatype typedArrayCount property bufferViews = .ok values) :
    datatype = some values.componentDatatype := by
  unfold readValues at h
  split at h
  · cases h
  · exact createArrayBufferView_datatype h

/-- C11: a store that the body of `initializeProperty` (lines 197-285) returns
has array offsets exactly when the property is a
variable-length array (type ARRAY without componentCount), they have
`count + 1` entries, and no store has array offsets together with a fixed
componentCount on an array-typed property. -/
theorem initializeProperty_arrayOffsets_iff
    (getComponentDatatype : MetadataType → Option MetadataComponentType →
      Option MetadataEnumType → Option ComponentDatatype)
    (count : Nat) (property : Property) (classProperty : MetadataClassProperty)
    (bufferViews : List (String × Uint8Array)) (store : MetadataTableProperty)
    (hok : initializePropertyBody getComponentDatatype count property classProperty
      bufferViews = .ok store) :
    ((∃ a, store.arrayOffsets = some a) ↔
        (classProperty.type = MetadataType.ARRAY ∧ classProperty.componentCount = none)) ∧
      (∀ a, store.arrayOffsets = some a → a.length = count + 1) ∧
      ¬ (store.classProperty.type = MetadataType.ARRAY ∧
          (∃ k, store.classProperty.componentCount = some k) ∧
          ∃ a, store.arrayOffsets = some a) := by
  obtain ⟨_, _, h2, _, _, _, _, hclass⟩ := initializePropertyBody_ok hok
  rw [hclass]
  rcases readArrayOffsets_ok h2 with ⟨hvar, a, ha, hlen, _⟩ | ⟨hvar, hnone⟩
  · obtain ⟨htype, hcount⟩ := (isVariableSizeArray_iff classProperty).1 hvar
    refine ⟨⟨fun _ => ⟨htype, hcount⟩, fun _ => ⟨a, ha⟩⟩, ?_, ?_⟩
    · intro a2 ha2
      rw [ha] at ha2
      injection ha2 with ha2
      subst ha2
      exact hlen
    · rintro ⟨_, ⟨k, hk⟩, _⟩
      rw [hcount] at hk
      cases hk
  · refine ⟨⟨?_, ?_⟩, ?_, ?_⟩
    · rintro ⟨a, ha⟩
      rw [hnone] at ha
      cases ha
    · intro h
      rw [(isVariableSizeArray_iff classProperty).2 h] at hvar
      cases hvar
    · intro a ha
      rw [hnone] at ha
      cases ha
    · rintro ⟨_, _, a, ha⟩
      rw [hnone] at ha
      cases ha

/-- C11, at the variable-size array of three entities. -/
theorem initializeProperty_arrayOffsets_iff_witness :
    ((∃ a, variableArrayStore.arrayOffsets = some a) ↔
        (variableArrayClassProperty.type = MetadataType.ARRAY ∧
          variableArrayClassProperty.componentCount = none)) ∧
      (∀ a, variableArrayStore.arrayOffsets = some a → a.length = 3 + 1) ∧
      ¬ (variableArrayStore.classProperty.type = MetadataType.ARRAY ∧
          (∃ k, variableArrayStore.classProperty.componentCount = some k) ∧
          ∃ a, variableArrayStore.arrayOffsets = some a) :=
  initializeProperty_arrayOffsets_iff sampleGetComponentDatatype 3 sampleProperty
    variableArrayClassProperty variableArrayBufferViews variableArrayStore rfl

/-- C12: a store that the body of `initializeProperty` (lines 197-285) returns
has string offsets exactly when the type or the component type is STRING, and they have `componentCount + 1` entries, where
`componentCount` is the total slot count: `a[count] - a[0]` for a variable
array, `count * k` for a fixed array, `count` otherwise. -/
theorem initializeProperty_stringOffsets_iff
    (getComponentDatatype : MetadataType → Option MetadataComponentType →
      Option MetadataEnumType → Option ComponentDatatype)
    (count : Nat) (property : Property) (classProperty : MetadataClassProperty)
    (bufferViews : List (String × Uint8Array)) (store : MetadataTableProperty)
    (hok : initializePropertyBody getComponentDatatype count property classProperty
      bufferViews = .ok store) :
    ((∃ s, store.stringOffsets = some s) ↔
        (classProperty.type = MetadataType.STRING ∨
          classProperty.componentType = some MetadataComponentType.STRING)) ∧
      ∃ componentCount : Int,
        computeComponentCount count classProperty store.arrayOffsets
          = .ok (some componentCount) ∧
        (∀ a, store.arrayOffsets = some a →
          ∃ first last : Int, a.get 0 = some first ∧ a.get count = some last ∧
            componentCount = last - first) ∧
        (∀ k, classProperty.type = MetadataType.ARRAY →
          classProperty.componentCount = some k → componentCount = (count : Int) * (k : Int)) ∧
        (classProperty.type ≠ MetadataType.ARRAY → componentCount = (count : Int)) ∧
        (∀ s, store.stringOffsets = some s → (s.length : Int) = componentCount + 1) := by
  obtain ⟨cc, _, h2, h3, h4, _, _, _⟩ := initializePropertyBody_ok hok
  obtain ⟨n, hcc, hfixed, hscalar, hvariable⟩ := computeComponentCount_ok h2 h3
  subst hcc
  rcases readStringOffsets_ok h4 with ⟨hstr, s, hs, hlen, _⟩ | ⟨hstr, hnone⟩
  · refine ⟨⟨fun _ => (hasStrings_iff classProperty).1 hstr, fun _ => ⟨s, hs⟩⟩,
      n, h3, hvariable, hfixed, hscalar, ?_⟩
    intro s2 hs2
    rw [hs] at hs2
    injection hs2 with hs2
    subst hs2
    rcases toIndex_ok hlen with ⟨hnone, _⟩ | hsome
    · simp [jsAdd] at hnone
    · simp only [jsAdd] at hsome
      injection hsome with hsome
      exact hsome.symm
  · refine ⟨⟨?_, ?_⟩, n, h3, hvariable, hfixed, hscalar, ?_⟩
    · rintro ⟨s, hs⟩
      rw [hnone] at hs
      cases hs
    · intro h
      rw [(hasStrings_iff classProperty).2 h] at hstr
      cases hstr
    · intro s hs
      rw [hnone] at hs
      cases hs

/-- C12, at the string property of three entities. -/
theorem initializeProperty_stringOffsets_iff_witness :
    ((∃ s, stringStore.stringOffsets = some s) ↔
        (stringClassProperty.type = MetadataType.STRING ∨
          stringClassProperty.componentType = some MetadataComponentType.STRING)) ∧
      ∃ componentCount : Int,
        computeComponentCount 3 stringClassProperty stringStore.arrayOffsets
          = .ok (some componentCount) ∧
        (∀ a, stringStore.arrayOffsets = some a →
          ∃ first last : Int, a.get 0 = some first ∧ a.get 3 = some last ∧
            componentCount = last - first) ∧
        (∀ k, stringClassProperty.type = MetadataType.ARRAY →
          stringClassProperty.componentCount = some k →
          componentCount = ((3 : Nat) : Int) * (k : Int)) ∧
        (stringClassProperty.type ≠ MetadataType.ARRAY → componentCount = ((3 : Nat) : Int)) ∧
        (∀ s, stringStore.stringOffsets = some s → (s.length : Int) = componentCount + 1) :=
  initializeProperty_stringOffsets_iff sampleGetComponentDatatype 3 sampleProperty
    stringClassProperty stringBufferViews stringStore rfl

/-- C13, refuted as stated: the body of `initializeProperty` gives the string
property of three entities with the string offsets `2, 5, 9, 9` a values array
of `9 - 2 = 7` bytes, while the last entry of its string offsets is `9`. -/
theorem initializeProperty_last_stringOffset_differs :
    initializePropertyBody sampleGetComponentDatatype 3 sampleProperty stringClassProperty
        shiftedStringBufferViews = .ok shiftedStringStore ∧
      shiftedStringStore.stringOffsets = some shiftedStringOffsets ∧
      shiftedStringOffsets.length = 4 ∧
      shiftedStringOffsets.get 3 = some 9 ∧
      shiftedStringStore.values.componentDatatype = ComponentDatatype.UNSIGNED_BYTE ∧
      shiftedStringStore.values.length = 7 :=
  ⟨rfl, rfl, rfl, rfl, rfl, rfl⟩

/-- C13, amended: for a string property store with non-empty string offsets
that the body of `initializeProperty` returns, the values array is an array of
bytes whose length is the last entry of the
string offsets minus the first; the last entry is that length when the first
entry is zero. -/
theorem initializeProperty_last_stringOffset
    (getComponentDatatype : MetadataType → Option MetadataComponentType →
      Option MetadataEnumType → Option ComponentDatatype)
    (count : Nat) (property : Property) (classProperty : MetadataClassProperty)
    (bufferViews : List (String × Uint8Array)) (store : MetadataTableProperty)
    (s : TypedArray)
    (hok : initializePropertyBody getComponentDatatype count property classProperty
      bufferViews = .ok store)
    (hs : store.stringOffsets = some s)
    (hpos : 0 < s.length) :
    ∃ first last : Int, s.get 0 = some first ∧ s.get (s.length - 1) = some last ∧
      store.values.componentDatatype = ComponentDatatype.UNSIGNED_BYTE ∧
      (store.values.length : Int) = last - first ∧
      (first = 0 → last = (store.values.length : Int)) := by
  obtain ⟨cc, typedArrayCount, h2, h3, h4, h5, h6, _⟩ := initializePropertyBody_ok hok
  obtain ⟨n, hcc, _, _, _⟩ := computeComponentCount_ok h2 h3
  subst hcc
  rcases readStringOffsets_ok h4 with ⟨hstr, s2, hs2, hlen, _⟩ | ⟨_, hnone⟩
  · rw [hs] at hs2
    injection hs2 with hs2
    subst hs2
    have hn : n = ((s.length - 1 : Nat) : Int) := by
      rcases toIndex_ok hlen with ⟨hnone, _⟩ | hsome
      · simp [jsAdd] at hnone
      · simp only [jsAdd] at hsome
        injection hsome with hsome
        omega
    obtain ⟨first, last, h0, hlast, hsum⟩ :=
      sumOffsetDifferences_telescope s (s.length - 1) (by omega)
    have hdatatype : store.values.componentDatatype = ComponentDatatype.UNSIGNED_BYTE := by
      have := readValues_datatype h6
      simp only [chooseComponentDatatype, hstr, Bool.true_or, if_true] at this
      injection this with this
      exact this.symm
    have hlength : (store.values.length : Int) = last - first := by
      rw [hs, hn] at h5
      simp only [computeTypedArrayCount, hstr, if_true, sumOffsetDifferencesOf, loopIterations,
        Int.toNat_ofNat, hsum] at h5
      injection h5 with h5
      subst h5
      rcases toIndex_ok (readValues_ok h6).1 with ⟨hnone, _⟩ | hsome
      · cases hnone
      · injection hsome with hsome
        exact hsome.symm
    refine ⟨first, last, h0, hlast, hdatatype, hlength, ?_⟩
    intro hfirst
    rw [hlength, hfirst]
    ring
  · rw [hs] at hnone
    cases hnone

/-- C13 amended, at the string offsets `2, 5, 9, 9`. -/
theorem initializeProperty_last_stringOffset_witness :
    ∃ first last : Int, shiftedStringOffsets.get 0 = some first ∧
      shiftedStringOffsets.get (shiftedStringOffsets.length - 1) = some last ∧
      shiftedStringStore.values.componentDatatype = ComponentDatatype.UNSIGNED_BYTE ∧
      (shiftedStringStore.values.length : Int) = last - first ∧
      (first = 0 → last = (shiftedStringStore.values.length : Int)) :=
  initializeProperty_last_stringOffset sampleGetComponentDatatype 3 sampleProperty
    stringClassProperty shiftedStringBufferViews shiftedStringStore shiftedStringOffsets
    rfl rfl (by decide)

/-- C14, refuted as stated: the body of `initializeProperty` gives a non-array
property of type VEC2 over three entities a values array of three elements,
not of `2 * 3`. -/
theorem initializeProperty_vector_values_length_differs :
    vec2ClassProperty.type = MetadataType.VEC2 ∧
      hasStrings vec2ClassProperty = false ∧ hasBooleans vec2ClassProperty = false ∧
      initializePropertyBody sampleGetComponentDatatype 3 sampleProperty vec2ClassProperty
        fixedArrayBufferViews = .ok vec2Store ∧
      vec2Store.values.length = 3 ∧ vec2Store.values.length ≠ 2 * 3 :=
  ⟨rfl, rfl, rfl, rfl, rfl, by decide⟩

/-- C14, amended: for a non-array numeric property whose type is a vector
(VEC2, VEC3 or VEC4) the values array that `initializeProperty` creates in its
body (lines 197-285) has length `count`, one element per entity. -/
theorem initializeProperty_vector_values_length
    (getComponentDatatype : MetadataType → Option MetadataComponentType →
      Option MetadataEnumType → Option ComponentDatatype)
    (count : Nat) (property : Property) (classProperty : MetadataClassProperty)
    (bufferViews : List (String × Uint8Array)) (store : MetadataTableProperty)
    (hvector : classProperty.type = MetadataType.VEC2 ∨ classProperty.type = MetadataType.VEC3 ∨
      classProperty.type = MetadataType.VEC4)
    (hstrings : hasStrings classProperty = false)
    (hbooleans : hasBooleans classProperty = false)
    (hok : initializePropertyBody getComponentDatatype count property classProperty
      bufferViews = .ok store) :
    store.arrayOffsets = none ∧ store.stringOffsets = none ∧ store.values.length = count := by
  obtain ⟨cc, typedArrayCount, h2, h3, h4, h5, h6, _⟩ := initializePropertyBody_ok hok
  obtain ⟨n, hcc, _, hscalar, _⟩ := computeComponentCount_ok h2 h3
  subst hcc
  have hne : classProperty.type ≠ MetadataType.ARRAY := by
    rcases hvector with h | h | h <;> rw [h] <;> decide
  have hn : n = (count : Int) := hscalar hne
  subst hn
  simp only [computeTypedArrayCount, hstrings, hbooleans, Bool.false_eq_true, if_false] at h5
  injection h5 with h5
  subst h5
  refine ⟨?_, ?_, ?_⟩
  · rcases readArrayOffsets_ok h2 with ⟨hvar, _⟩ | ⟨_, hnone⟩
    · exact absurd ((isVariableSizeArray_iff classProperty).1 hvar).1 hne
    · exact hnone
  · rcases readStringOffsets_ok h4 with ⟨hstr, _⟩ | ⟨_, hnone⟩
    · rw [hstrings] at hstr
      cases hstr
    · exact hnone
  · rcases toIndex_ok (readValues_ok h6).1 with ⟨hnone, _⟩ | hsome
    · cases hnone
    · injection hsome with hsome
      exact_mod_cast hsome.symm

/-- C14 amended, at the VEC2 property of three entities. -/
theorem initializeProperty_vector_values_length_witness :
    vec2Store.arrayOffsets = none ∧ vec2Store.stringOffsets = none ∧
      vec2Store.values.length = 3 :=
  initializeProperty_vector_values_length sampleGetComponentDatatype 3 sampleProperty
    vec2ClassProperty fixedArrayBufferViews vec2Store (Or.inl rfl) rfl rfl rfl

/-- C17: in every store that the body of `initializeProperty` returns, the
storage kind of the values array is UNSIGNED_BYTE when the type or the
component type is STRING or BOOLEAN, and otherwise it is exactly what
`MetadataType.getComponentDatatype` gives for the type, the component type and
the enum type. -/
theorem initializeProperty_values_datatype
    (getComponentDatatype : MetadataType → Option MetadataComponentType →
      Option MetadataEnumType → Option ComponentDatatype)
    (count : Nat) (property : Property) (classProperty : MetadataClassProperty)
    (bufferViews : List (String × Uint8Array)) (store : MetadataTableProperty)
    (hok : initializePropertyBody getComponentDatatype count property classProperty
      bufferViews = .ok store) :
    ((classProperty.type = MetadataType.STRING ∨
        classProperty.componentType = some MetadataComponentType.STRING ∨
        classProperty.type = MetadataType.BOOLEAN ∨
        classProperty.componentType = some MetadataComponentType.BOOLEAN) →
      store.values.componentDatatype = ComponentDatatype.UNSIGNED_BYTE) ∧
    (¬ (classProperty.type = MetadataType.STRING ∨
        classProperty.componentType = some MetadataComponentType.STRING ∨
        classProperty.type = MetadataType.BOOLEAN ∨
        classProperty.componentType = some MetadataComponentType.BOOLEAN) →
      getComponentDatatype classProperty.type classProperty.componentType
          classProperty.enumType = some store.values.componentDatatype) := by
  obtain ⟨_, _, _, _, _, _, h6, _⟩ := initializePropertyBody_ok hok
  have hkind := readValues_datatype h6
  constructor
  · intro h
    have : (hasStrings classProperty || hasBooleans classProperty) = true := by
      simp only [Bool.or_eq_true, hasStrings_iff, hasBooleans_iff]
      tauto
    simp only [chooseComponentDatatype, this, if_true] at hkind
    injection hkind with hkind
    exact hkind.symm
  · intro h
    have : (hasStrings classProperty || hasBooleans classProperty) = false := by
      rw [Bool.eq_false_iff]
      intro hne
      simp only [Bool.or_eq_true, hasStrings_iff, hasBooleans_iff] at hne
      tauto
    simp only [chooseComponentDatatype, this, Bool.false_eq_true, if_false] at hkind
    exact hkind

/-- C17, at the boolean property of ten entities. -/
theorem initializeProperty_values_datatype_witness :
    ((booleanClassProperty.type = MetadataType.STRING ∨
        booleanClassProperty.componentType = some MetadataComponentType.STRING ∨
        booleanClassProperty.type = MetadataType.BOOLEAN ∨
        booleanClassProperty.componentType = some MetadataComponentType.BOOLEAN) →
      booleanStore.values.componentDatatype = ComponentDatatype.UNSIGNED_BYTE) ∧
    (¬ (booleanClassProperty.type = MetadataType.STRING ∨
        booleanClassProperty.componentType = some MetadataComponentType.STRING ∨
        booleanClassProperty.type = MetadataType.BOOLEAN ∨
        booleanClassProperty.componentType = some MetadataComponentType.BOOLEAN) →
      sampleGetComponentDatatype booleanClassProperty.type booleanClassProperty.componentType
          booleanClassProperty.enumType = some booleanStore.values.componentDatatype) :=
  initializeProperty_values_datatype sampleGetComponentDatatype 10 sampleProperty
    booleanClassProperty booleanBufferViews booleanStore rfl

/-! ## The empty table -/

theorem createArrayBufferView_of_room {datatype : ComponentDatatype} {buffer : ArrayBuffer}
    {byteOffset : Nat} (n : Nat)
    (haligned : byteOffset % datatype.getSizeInBytes = 0)
    (hroom : byteOffset + n * datatype.getSizeInBytes ≤ buffer.length) :
    ComponentDatatype.createArrayBufferView (some datatype) buffer byteOffset (some (n : Int))
      = .ok { componentDatatype := datatype, buffer := buffer, byteOffset := byteOffset,
              length := n } := by
  have hindex : toIndex (some (n : Int)) = .ok n := by
    simp [toIndex]
  simp only [ComponentDatatype.createArrayBufferView, haligned, hindex, ne_eq, not_true_eq_false,
    if_false]
  rw [if_neg (by omega)]

/-- For `count = 0`, a variable-size array whose three buffer views are present
but empty makes the body of `initializeProperty` fail: the one array offset
does not fit. -/
theorem initializePropertyBody_count_zero_empty_buffers :
    (∃ view, emptyBufferViews.lookup (propertyKey sampleProperty.bufferView) = some view) ∧
      (∃ view, emptyBufferViews.lookup (propertyKey sampleProperty.arrayOffsetBufferView)
        = some view) ∧
      (∃ view, emptyBufferViews.lookup (propertyKey sampleProperty.stringOffsetBufferView)
        = some view) ∧
      initializePropertyBody sampleGetComponentDatatype 0 sampleProperty
        variableArrayClassProperty emptyBufferViews = .error JSError.RangeError :=
  ⟨⟨_, rfl⟩, ⟨_, rfl⟩, ⟨_, rfl⟩, rfl⟩

/-- For `count = 0` the body of `initializeProperty` succeeds with component
count `0` when the buffer views it needs are present, each at an offset aligned
to the element size, the offset views hold one entry, and the storage kind of
values is defined.  The array offsets (for a variable-size array) and the
string offsets (for a property with strings) then have exactly one entry, and
values has length `0`. -/
theorem initializePropertyBody_count_zero
    (getComponentDatatype : MetadataType → Option MetadataComponentType →
      Option MetadataEnumType → Option ComponentDatatype)
    (property : Property) (classProperty : MetadataClassProperty)
    (bufferViews : List (String × Uint8Array))
    (valuesView : Uint8Array) (datatype offsetDatatype : ComponentDatatype)
    (hoffsetDatatype : offsetComponentDatatype property = some offsetDatatype)
    (hvalues : bufferViews.lookup (propertyKey property.bufferView) = some valuesView)
    (hdatatype : chooseComponentDatatype getComponentDatatype classProperty = some datatype)
    (hvaluesAligned : valuesView.byteOffset % datatype.getSizeInBytes = 0)
    (hvaluesRoom : valuesView.byteOffset ≤ valuesView.buffer.length)
    (harray : isVariableSizeArray classProperty = true →
      ∃ view, bufferViews.lookup (propertyKey property.arrayOffsetBufferView) = some view ∧
        view.byteOffset % offsetDatatype.getSizeInBytes = 0 ∧
        view.byteOffset + offsetDatatype.getSizeInBytes ≤ view.buffer.length)
    (hstring : hasStrings classProperty = true →
      ∃ view, bufferViews.lookup (propertyKey property.stringOffsetBufferView) = some view ∧
        view.byteOffset % offsetDatatype.getSizeInBytes = 0 ∧
        view.byteOffset + offsetDatatype.getSizeInBytes ≤ view.buffer.length) :
    ∃ store : MetadataTableProperty,
      initializePropertyBody getComponentDatatype 0 property classProperty bufferViews
        = .ok store ∧
      computeComponentCount 0 classProperty store.arrayOffsets = .ok (some 0) ∧
      (isVariableSizeArray classProperty = true →
        ∃ a, store.arrayOffsets = some a ∧ a.length = 1) ∧
      (isVariableSizeArray classProperty = false → store.arrayOffsets = none) ∧
      (hasStrings classProperty = true → ∃ s, store.stringOffsets = some s ∧ s.length = 1) ∧
      (hasStrings classProperty = false → store.stringOffsets = none) ∧
      store.values.length = 0 := by
  -- the array offsets
  obtain ⟨arrayOffsets, h2, harray1, harray2⟩ :
      ∃ arrayOffsets, readArrayOffsets 0 property classProperty bufferViews = .ok arrayOffsets ∧
        (isVariableSizeArray classProperty = true → ∃ a, arrayOffsets = some a ∧ a.length = 1) ∧
        (isVariableSizeArray classProperty = false → arrayOffsets = none) := by
    cases hvar : isVariableSizeArray classProperty with
    | false => exact ⟨none, by simp [readArrayOffsets, hvar], fun h => (by cases h), fun _ => rfl⟩
    | true =>
      obtain ⟨view, hview, haligned, hroom⟩ := harray hvar
      have hcreate := @createArrayBufferView_of_room offsetDatatype view.buffer view.byteOffset 1
        haligned (by omega)
      refine ⟨some ⟨offsetDatatype, view.buffer, view.byteOffset, 1⟩, ?_,
        fun _ => ⟨_, rfl, rfl⟩, fun h => by cases h⟩
      simp only [readArrayOffsets, hvar, if_true, getBufferView, hview, hoffsetDatatype]
      have hone : ((0 : Nat) : Int) + 1 = ((1 : Nat) : Int) := by norm_num
      rw [hone, hcreate]
  -- the component count
  have h3 : computeComponentCount 0 classProperty arrayOffsets = .ok (some 0) := by
    cases hvar : isVariableSizeArray classProperty with
    | true =>
      obtain ⟨a, ha, _⟩ := harray1 hvar
      subst ha
      simp [computeComponentCount, hvar, sumOffsetDifferencesOf, sumOffsetDifferences]
    | false =>
      cases harr : isArray classProperty with
      | false => simp [computeComponentCount, hvar, harr]
      | true =>
        cases hk : classProperty.componentCount with
        | none =>
          have : isVariableSizeArray classProperty = true := by
            simp [isVariableSizeArray, harr, hk]
          rw [hvar] at this
          cases this
        | some k => simp [computeComponentCount, hvar, harr, hk]
  -- the string offsets
  obtain ⟨stringOffsets, h4, hstring1, hstring2⟩ :
      ∃ stringOffsets,
        readStringOffsets (some 0) property classProperty bufferViews = .ok stringOffsets ∧
        (hasStrings classProperty = true → ∃ s, stringOffsets = some s ∧ s.length = 1) ∧
        (hasStrings classProperty = false → stringOffsets = none) := by
    cases hstr : hasStrings classProperty with
    | false => exact ⟨none, by simp [readStringOffsets, hstr], fun h => (by cases h), fun _ => rfl⟩
    | true =>
      obtain ⟨view, hview, haligned, hroom⟩ := hstring hstr
      have hcreate := @createArrayBufferView_of_room offsetDatatype view.buffer view.byteOffset 1
        haligned (by omega)
      refine ⟨some ⟨offsetDatatype, view.buffer, view.byteOffset, 1⟩, ?_,
        fun _ => ⟨_, rfl, rfl⟩, fun h => by cases h⟩
      simp only [readStringOffsets, hstr, if_true, getBufferView, hview, hoffsetDatatype, jsAdd]
      have hone : (0 : Int) + 1 = ((1 : Nat) : Int) := by norm_num
      rw [hone, hcreate]
  -- the length of values
  have h5 : computeTypedArrayCount classProperty stringOffsets (some 0) = .ok (some 0) := by
    cases hstr : hasStrings classProperty with
    | true =>
      obtain ⟨s, hs, _⟩ := hstring1 hstr
      subst hs
      simp [computeTypedArrayCount, hstr, sumOffsetDifferencesOf, sumOffsetDifferences,
        loopIterations]
    | false =>
      cases hbool : hasBooleans classProperty with
      | true => simp [computeTypedArrayCount, hstr, hbool, jsCeilDiv8]
      | false => simp [computeTypedArrayCount, hstr, hbool]
  have h6 : readValues (chooseComponentDatatype getComponentDatatype classProperty) (some 0)
      property bufferViews
      = .ok ⟨datatype, valuesView.buffer, valuesView.byteOffset, 0⟩ := by
    have hcreate := @createArrayBufferView_of_room datatype valuesView.buffer
      valuesView.byteOffset 0 hvaluesAligned (by omega)
    simp only [readValues, getBufferView, hvalues, hdatatype]
    exact hcreate
  refine ⟨⟨arrayOffsets, stringOffsets, ⟨datatype, valuesView.buffer, valuesView.byteOffset, 0⟩,
    classProperty⟩, ?_, h3, harray1, harray2, hstring1, hstring2, rfl⟩
  simp only [initializePropertyBody, h2, h3, h4, h5, h6]

/-- C15: for `count = 0`, the variable-size array of strings with 8-bit offsets,
which uses no UINT64 kind, over buffer views that are present and hold the one
sentinel entry of each offset array, `initializeProperty` does not succeed: it
stops at line 187 with a `ReferenceError`.  The statements after the checks
build a store with one array offset, one string offset and no values. -/
theorem initializeProperty_count_zero_referenceError :
    sampleProperty.offsetType = some MetadataOffsetType.UINT8 ∧
      stringArrayClassProperty.enumType = none ∧
      stringArrayClassProperty.componentType = some MetadataComponentType.STRING ∧
      stringArrayClassProperty.type = MetadataType.ARRAY ∧
      (∃ view, zeroCountBufferViews.lookup (propertyKey sampleProperty.bufferView)
        = some view) ∧
      (∃ view, zeroCountBufferViews.lookup (propertyKey sampleProperty.arrayOffsetBufferView)
        = some view) ∧
      (∃ view, zeroCountBufferViews.lookup (propertyKey sampleProperty.stringOffsetBufferView)
        = some view) ∧
      initializeProperty sampleGetComponentDatatype 0 sampleProperty stringArrayClassProperty
        zeroCountBufferViews = .error JSError.ReferenceError ∧
      ∃ (store : MetadataTableProperty) (a s : TypedArray),
        initializePropertyBody sampleGetComponentDatatype 0 sampleProperty
          stringArrayClassProperty zeroCountBufferViews = .ok store ∧
        store.arrayOffsets = some a ∧ a.length = 1 ∧
        store.stringOffsets = some s ∧ s.length = 1 ∧
        store.values.length = 0 :=
  ⟨rfl, rfl, rfl, rfl, ⟨_, rfl⟩, ⟨_, rfl⟩, ⟨_, rfl⟩, rfl, ⟨_, _, _, rfl, rfl, rfl, rfl, rfl, rfl⟩⟩

/-! ## The accessor on a store, and the constructor -/

/-- C19: for a property that has a store, `getProperty` returns for every
index, in range or not, the same value: a copy of the whole store record, with
its array offsets, string offsets, values and class property. -/
theorem getProperty_store_any_index (table : MetadataTable) (propertyId : String)
    (store : MetadataTableProperty)
    (hstore : table._properties.lookup propertyId = some store) :
    (∀ index : Int, table.getProperty index propertyId = .ok (PropertyValue.store store)) ∧
      ∀ i j : Int, table.getProperty i propertyId = table.getProperty j propertyId := by
  have h : ∀ index : Int,
      table.getProperty index propertyId = .ok (PropertyValue.store store) := by
    intro index
    simp [MetadataTable.getProperty, hstore, clone]
  exact ⟨h, fun i j => by rw [h i, h j]⟩

/-- C19, at the property `variable` of the sample table. -/
theorem getProperty_store_any_index_witness :
    (∀ index : Int,
        sampleTable.getProperty index "variable" = .ok (PropertyValue.store variableArrayStore)) ∧
      ∀ i j : Int,
        sampleTable.getProperty i "variable" = sampleTable.getProperty j "variable" :=
  getProperty_store_any_index sampleTable "variable" variableArrayStore rfl

/-- The layout that the body of `initializeProperty` gives an array of one
component per entity is that of a non-array property of the same component
kind: the same array offsets, string offsets and values, or the same failure. -/
theorem initializePropertyBody_fixed_one_layout
    (getComponentDatatype : MetadataType → Option MetadataComponentType →
      Option MetadataEnumType → Option ComponentDatatype)
    (count : Nat) (property : Property) (arrayProperty scalarProperty : MetadataClassProperty)
    (bufferViews : List (String × Uint8Array))
    (harray : arrayProperty.type = MetadataType.ARRAY)
    (hone : arrayProperty.componentCount = some 1)
    (hscalar : scalarProperty.type ≠ MetadataType.ARRAY)
    (hstrings : hasStrings arrayProperty = hasStrings scalarProperty)
    (hbooleans : hasBooleans arrayProperty = hasBooleans scalarProperty)
    (hdatatype : chooseComponentDatatype getComponentDatatype arrayProperty
      = chooseComponentDatatype getComponentDatatype scalarProperty) :
    (initializePropertyBody getComponentDatatype count property arrayProperty
        bufferViews).map
        (fun store => (store.arrayOffsets, store.stringOffsets, store.values))
      = (initializePropertyBody getComponentDatatype count property scalarProperty
        bufferViews).map
        (fun store => (store.arrayOffsets, store.stringOffsets, store.values)) := by
  have h2a : readArrayOffsets count property arrayProperty bufferViews = .ok none := by
    simp [readArrayOffsets, isVariableSizeArray, hone]
  have h2s : readArrayOffsets count property scalarProperty bufferViews = .ok none := by
    simp [readArrayOffsets, isVariableSizeArray, isArray, hscalar]
  have h3a : computeComponentCount count arrayProperty none = .ok (some (count : Int)) := by
    simp [computeComponentCount, isVariableSizeArray, isArray, harray, hone]
  have h3s : computeComponentCount count scalarProperty none = .ok (some (count : Int)) := by
    simp [computeComponentCount, isVariableSizeArray, isArray, hscalar]
  have h4 : ∀ componentCount,
      readStringOffsets componentCount property arrayProperty bufferViews
        = readStringOffsets componentCount property scalarProperty bufferViews := by
    intro componentCount
    simp only [readStringOffsets, hstrings]
  have h5 : ∀ stringOffsets componentCount,
      computeTypedArrayCount arrayProperty stringOffsets componentCount
        = computeTypedArrayCount scalarProperty stringOffsets componentCount := by
    intro stringOffsets componentCount
    simp only [computeTypedArrayCount, hstrings, hbooleans]
  simp only [initializePropertyBody, h2a, h2s, h3a, h3s, h4, h5, hdatatype]
  cases readStringOffsets (some (count : Int)) property scalarProperty bufferViews with
  | error e => rfl
  | ok stringOffsets =>
    dsimp only
    cases computeTypedArrayCount scalarProperty stringOffsets (some (count : Int)) with
    | error e => rfl
    | ok typedArrayCount =>
      dsimp only
      cases readValues (chooseComponentDatatype getComponentDatatype scalarProperty)
          typedArrayCount property bufferViews with
      | error e => rfl
      | ok values => rfl

/-- Options that declare at least one property make the constructor fail on
the identifier `count`. -/
theorem metadataTable_new_of_declared
    (getComponentDatatype : MetadataType → Option MetadataComponentType →
      Option MetadataEnumType → Option ComponentDatatype)
    (options : MetadataTableOptions) (first : String × Property)
    (rest : List (String × Property))
    (h : options.properties = some (first :: rest)) :
    MetadataTable.new getComponentDatatype false options = .error JSError.ReferenceError := by
  simp [MetadataTable.new, h, initializeProperties, resolveCount]

/-- Options that declare no property give a table with the count and the class
of the options and no store. -/
theorem metadataTable_new_of_empty
    (getComponentDatatype : MetadataType → Option MetadataComponentType →
      Option MetadataEnumType → Option ComponentDatatype)
    (options : MetadataTableOptions) (h : options.properties = some []) :
    MetadataTable.new getComponentDatatype false options
      = .ok { _count := options.count, _class := options.class_, _properties := [] } := by
  simp [MetadataTable.new, h, initializeProperties]

/-- C16: over three entities and the same buffer views, the array of one
component and the non-array property get the same array offsets, string offsets
and values from the body of `initializeProperty`, but `getProperty(0, id)` does
not decode
them identically: it returns copies of the two store records, which differ in
their class property. -/
theorem getProperty_fixed_one_differs_from_scalar :
    initializePropertyBody sampleGetComponentDatatype 3 sampleProperty fixedOneClassProperty
        fixedArrayBufferViews = .ok fixedOneStore ∧
      initializePropertyBody sampleGetComponentDatatype 3 sampleProperty scalarClassProperty
        fixedArrayBufferViews = .ok scalarStore ∧
      computeComponentCount 3 fixedOneClassProperty fixedOneStore.arrayOffsets = .ok (some 3) ∧
      computeComponentCount 3 scalarClassProperty scalarStore.arrayOffsets = .ok (some 3) ∧
      fixedOneStore.arrayOffsets = scalarStore.arrayOffsets ∧
      fixedOneStore.stringOffsets = scalarStore.stringOffsets ∧
      fixedOneStore.values = scalarStore.values ∧
      pairTable.getProperty 0 "array" = .ok (PropertyValue.store fixedOneStore) ∧
      pairTable.getProperty 0 "scalar" = .ok (PropertyValue.store scalarStore) ∧
      pairTable.getProperty 0 "array" ≠ pairTable.getProperty 0 "scalar" := by
  refine ⟨rfl, rfl, rfl, rfl, rfl, rfl, rfl, rfl, rfl, ?_⟩
  intro h
  have harray : pairTable.getProperty 0 "array" = .ok (PropertyValue.store fixedOneStore) := rfl
  have hscalar : pairTable.getProperty 0 "scalar" = .ok (PropertyValue.store scalarStore) := rfl
  rw [harray, hscalar] at h
  injection h with h
  injection h with h
  have htype := congrArg (fun store => store.classProperty.type) h
  exact absurd htype (by decide)

/-- C18: with options that declare the property `fixed` over three entities,
for which the body of `initializeProperty` run with `options.count` builds a
store, the constructor produces no table: evaluating the identifier `count` of
line 53 raises a `ReferenceError` (and the debug build fails on its first
check). -/
theorem metadataTable_new_unbound_count :
    initializePropertyBody sampleGetComponentDatatype sampleOptions.count sampleProperty
        fixedArrayClassProperty sampleOptions.bufferViews = .ok fixedArrayStore ∧
      sampleOptions.class_.properties.lookup "fixed" = some fixedArrayClassProperty ∧
      MetadataTable.new sampleGetComponentDatatype false sampleOptions
        = .error JSError.ReferenceError ∧
      MetadataTable.new sampleGetComponentDatatype true sampleOptions
        = .error JSError.DeveloperError :=
  ⟨rfl, rfl, rfl, rfl⟩

end Cesium
